import Mathlib

/-!
Shallow embedding of the pico-extras-usb-msc-virtual-disk sources
(src/src/*.c, src/src/*.cpp, src/src/*.h) in Lean 4, together with
theorems settling the frozen claims about the natural-language
specification of the repository.

Machine integers are modelled as Nat with explicit reductions modulo
2^32 (resp. 2^16) exactly where the C code truncates.  Byte buffers are
modelled as List Nat; a C function that fills a caller buffer of
bufsize bytes is modelled as a function returning the List Nat of the
bytes it writes (or transforming the destination list when the function
deliberately leaves parts of the destination untouched).
-/

/-! ## stdio_ring_buffer.c -/

/-- State of a ring buffer, from struct ring_buffer_s in
stdio_ring_buffer.h.  The byte array delimited by the beg and end
pointers is modelled by the list data (so the capacity end - beg is
data.length) and the write pointer ptr by its index relative to beg.
The notify_write_cb member only forwards (len, tot) to a client and is
not part of the buffer semantics. -/
structure ring_buffer_t where
  data : List Nat
  ptr : Nat
  tot : Nat
deriving Repr, DecidableEq

/-- ring_buffer_capacity from stdio_ring_buffer.h: end - beg. -/
def ring_buffer_capacity (rb : ring_buffer_t) : Nat :=
  rb.data.length

/-- ring_buffer_assert from stdio_ring_buffer.c: the consistency check
beg <= ptr, ptr < end, tot % capacity == ptr - beg. -/
def ring_buffer_assert (rb : ring_buffer_t) : Bool :=
  rb.ptr < ring_buffer_capacity rb &&
  rb.tot % ring_buffer_capacity rb == rb.ptr

/-- One store of the byte-by-byte branch of ring_buffer_write:
*(rb->ptr++) = *buf++; if (rb->ptr == rb->end) rb->ptr = rb->beg. -/
def ring_buffer_store (K : Nat) (p : List Nat × Nat) (b : Nat) : List Nat × Nat :=
  (p.1.set p.2 b, if p.2 + 1 = K then 0 else p.2 + 1)

/-- ring_buffer_write from stdio_ring_buffer.c.  Updates tot by the full
requested length, keeps only the last capacity bytes of an oversized
write, and stores the kept bytes at consecutive (wrapping) positions
starting at ptr.  The C source stores those bytes either byte-by-byte
(short writes) or with one or two memcpy calls (long writes); both
branches store kept byte i at index (ptr + i) mod capacity and leave
ptr at (ptr + kept) mod capacity, which is what the fold below does.
Returns the new state and the number of bytes actually stored. -/
def ring_buffer_write (rb : ring_buffer_t) (buf : List Nat) : ring_buffer_t × Nat :=
  let K := ring_buffer_capacity rb
  let tot' := rb.tot + buf.length
  let kept := if buf.length > K then buf.drop (buf.length - K) else buf
  let dp := kept.foldl (ring_buffer_store K) (rb.data, rb.ptr)
  ({ data := dp.1, ptr := dp.2, tot := tot' }, kept.length)

/-- ring_buffer_get from stdio_ring_buffer.c.  Copies the intersection
of the requested range with the live window into dst and returns the
number of bytes copied; the rest of dst is untouched.  The C source
copies with one or two memcpy calls from index actual_start % capacity;
since actual_len <= capacity, the source positions are exactly
(start_idx + j) % capacity for j < actual_len, which the fold below
reads one byte at a time. -/
def ring_buffer_get (rb : ring_buffer_t) (offset : Nat) (dst : List Nat)
    (len : Nat) : List Nat × Nat :=
  let K := ring_buffer_capacity rb
  let start_offset := if rb.tot > K then rb.tot - K else 0
  let end_offset := rb.tot
  if offset ≥ end_offset ∨ offset + len ≤ start_offset then (dst, 0)
  else
    let actual_start := if offset < start_offset then start_offset else offset
    let actual_end := if offset + len > end_offset then end_offset else offset + len
    let actual_len := actual_end - actual_start
    let buf_offset := if actual_start > offset then actual_start - offset else 0
    let start_idx := actual_start % K
    let dst' := (List.range actual_len).foldl
      (fun d j => d.set (buf_offset + j) (rb.data.getD ((start_idx + j) % K) 0)) dst
    (dst', actual_len)

/-- Initial ring buffer of capacity K, as initialised for
stdio_ring_buffer_rb: ptr = beg, tot = 0 (the backing static array is
zero-initialised). -/
def ring_buffer_initial (K : Nat) : ring_buffer_t :=
  { data := List.replicate K 0, ptr := 0, tot := 0 }

/-- The ring-buffer state after a sequence of ring_buffer_write calls
starting from the initial state. -/
def ring_buffer_after (K : Nat) (writes : List (List Nat)) : ring_buffer_t :=
  writes.foldl (fun rb w => (ring_buffer_write rb w).1) (ring_buffer_initial K)

/-- The concatenated written stream of a sequence of writes. -/
def ring_stream (writes : List (List Nat)) : List Nat :=
  writes.flatten

/-! ## Volume geometry constants (vd_exfat_params.h, picovd_config.h)

All values are the resolved compile-time constants of the shipped
configuration: 512-byte sectors, 8 sectors per cluster, 1 GiB volume. -/

def EXFAT_BYTES_PER_SECTOR : Nat := 512
def EXFAT_SECTORS_PER_CLUSTER : Nat := 8
def MSC_BLOCK_SIZE : Nat := 512
def MSC_TOTAL_BLOCKS : Nat := 0x40000000 / 512
def EXFAT_FAT_REGION_START_LBA : Nat := 0x18
def EXFAT_FAT_REGION_LENGTH : Nat := 0x800
def EXFAT_CLUSTER_HEAP_START_LBA : Nat := 0x8010
def EXFAT_CLUSTER_HEAP_START_CLUSTER : Nat := 2
def EXFAT_CLUSTER_COUNT : Nat :=
  ((MSC_TOTAL_BLOCKS - EXFAT_CLUSTER_HEAP_START_LBA) + (EXFAT_SECTORS_PER_CLUSTER - 1)) /
    EXFAT_SECTORS_PER_CLUSTER
def EXFAT_ALLOCATION_BITMAP_START_LBA : Nat := EXFAT_CLUSTER_HEAP_START_LBA
def EXFAT_ALLOCATION_BITMAP_LENGTH_SECTORS : Nat := 64
def EXFAT_UPCASE_TABLE_START_LBA : Nat :=
  EXFAT_ALLOCATION_BITMAP_START_LBA + EXFAT_ALLOCATION_BITMAP_LENGTH_SECTORS
def EXFAT_UPCASE_TABLE_LENGTH_SECTORS : Nat := 8
def EXFAT_ROOT_DIR_START_LBA : Nat :=
  EXFAT_UPCASE_TABLE_START_LBA + EXFAT_UPCASE_TABLE_LENGTH_SECTORS
def EXFAT_ROOT_DIR_START_CLUSTER : Nat := 11
def EXFAT_ROOT_DIR_LENGTH_SECTORS : Nat := 24
def PICOVD_DYNAMIC_AREA_START_CLUSTER : Nat := 14
def PICOVD_DYNAMIC_AREA_END_CLUSTER : Nat := 0xE000
def PICOVD_DYNAMIC_AREA_END_LBA : Nat :=
  EXFAT_CLUSTER_HEAP_START_LBA + (PICOVD_DYNAMIC_AREA_END_CLUSTER - 2) * 8
def PICOVD_BOOTROM_START_LBA : Nat :=
  EXFAT_CLUSTER_HEAP_START_LBA + (0xE000 - 2) * 8
def PICOVD_BOOTROM_SIZE_BYTES : Nat := 0x8000
def PICOVD_FLASH_START_LBA : Nat :=
  EXFAT_CLUSTER_HEAP_START_LBA + (0xF000 - 2) * 8
def PICOVD_FLASH_SIZE_BYTES : Nat := 0x200000
def PICOVD_SRAM_START_LBA : Nat :=
  EXFAT_CLUSTER_HEAP_START_LBA + (0x1F000 - 2) * 8
def PICOVD_SRAM_SIZE_BYTES : Nat := 0x42000
def PICOVD_PARAM_MAX_DYNAMIC_FILES : Nat := 12

/-- Bytes per cluster: the cluster_size_bytes local of
vd_dynamic_cluster_alloc and vd_update_file. -/
def cluster_size_bytes : Nat := EXFAT_BYTES_PER_SECTOR * EXFAT_SECTORS_PER_CLUSTER

/-! ## Dynamic file registry (vd_virtual_disk.c) -/

/-- dynamic_cluster_map_entry_t from vd_virtual_disk.c (the handler
function pointer only forwards reads to the client callback and plays
no role in allocation; it is not modelled here). -/
structure dynamic_cluster_map_entry_t where
  first_cluster : Nat
  file_size_bytes : Nat
deriving Repr, DecidableEq

/-- The allocator state of vd_virtual_disk.c:
dynamic_cluster_map_next_cluster together with the registry table
dynamic_cluster_map (whose length is dynamic_cluster_map_count). -/
structure dynamic_cluster_state where
  next_cluster : Nat
  map : List dynamic_cluster_map_entry_t
deriving Repr, DecidableEq

/-- Initial allocator state (static initialisers in vd_virtual_disk.c). -/
def dynamic_cluster_state_initial : dynamic_cluster_state :=
  { next_cluster := PICOVD_DYNAMIC_AREA_START_CLUSTER, map := [] }

/-- vd_dynamic_cluster_alloc from vd_virtual_disk.c.  Returns the new
state together with the allocated first cluster, 0 on failure (out of
space or out of mapping entries), in which case the state is returned
unchanged. -/
def vd_dynamic_cluster_alloc (st : dynamic_cluster_state)
    (region_size_bytes : Nat) : dynamic_cluster_state × Nat :=
  let clusters_needed := (region_size_bytes + cluster_size_bytes - 1) / cluster_size_bytes
  if st.next_cluster + clusters_needed ≥ PICOVD_DYNAMIC_AREA_END_CLUSTER then
    (st, 0)
  else if st.map.length ≥ PICOVD_PARAM_MAX_DYNAMIC_FILES then
    (st, 0)
  else
    ({ next_cluster := st.next_cluster + clusters_needed,
       map := st.map ++ [{ first_cluster := st.next_cluster,
                           file_size_bytes := region_size_bytes }] },
     st.next_cluster)

/-- vd_dynamic_file_t from vd_virtual_disk.h (the name pointer,
attributes and the content callback play no role in the allocation and
update paths modelled here). -/
structure vd_dynamic_file_t where
  first_cluster : Nat
  size_bytes : Nat
  creat_time_sec : Nat
  mod_time_sec : Nat
deriving Repr, DecidableEq

/-- Modelled from the spec: vd_exfat_dir_update_file is declared in
vd_exfat_dirs.h and called from vd_update_file, but its definition is
not under src/.  Per spec section 4.6, the update path refreshes the
file's modification timestamp and raises a soft media-change
notification (vd_virtual_disk_contents_changed with hard_reset=false,
which sets the contents-changed flag).  The model takes the current
time and the current contents-changed flag and returns the updated
file and flag. -/
def vd_exfat_dir_update_file (now : Nat) (file : vd_dynamic_file_t)
    (changed_flag : Bool) : vd_dynamic_file_t × Bool :=
  ({ file with mod_time_sec := now }, true)

/-- vd_add_file from vd_virtual_disk.c.  If the file has no first
cluster, allocates its cluster run from the file's size_bytes and
registers it in the dynamic cluster map; returns -1 on allocation
failure.  (The subsequent vd_exfat_dir_add_file call registers the
directory entry and does not touch the allocator state.)  Returns the
new allocator state, the updated file and the return code. -/
def vd_add_file (st : dynamic_cluster_state) (file : vd_dynamic_file_t) :
    dynamic_cluster_state × vd_dynamic_file_t × Int :=
  if file.first_cluster = 0 then
    let r := vd_dynamic_cluster_alloc st file.size_bytes
    let file' := { file with first_cluster := r.2 }
    if r.2 = 0 then (r.1, file', -1) else (r.1, file', 0)
  else (st, file, 0)

/-- vd_update_file from vd_virtual_disk.c.  If the new size needs more
clusters than the current size occupies, the reservation is extended in
place when the file owns the tail of the dynamic area and enough free
clusters remain, and otherwise the call fails with -1 leaving
everything unchanged.  On success the size is set and
vd_exfat_dir_update_file (modelled from the spec, see above) refreshes
the modification time and raises the soft media-change notification.
Arguments: allocator state, current contents-changed flag, current
time, the file and the new size.  Returns (state, flag, file, code). -/
def vd_update_file (st : dynamic_cluster_state) (changed_flag : Bool)
    (now : Nat) (file : vd_dynamic_file_t) (size_bytes : Nat) :
    dynamic_cluster_state × Bool × vd_dynamic_file_t × Int :=
  let finish := fun (st' : dynamic_cluster_state) =>
    let fc := vd_exfat_dir_update_file now { file with size_bytes := size_bytes } changed_flag
    (st', fc.2, fc.1, (0 : Int))
  if size_bytes > file.size_bytes then
    let clusters_needed := (size_bytes + cluster_size_bytes - 1) / cluster_size_bytes
    let clusters_allocated := (file.size_bytes + cluster_size_bytes - 1) / cluster_size_bytes
    if clusters_needed > clusters_allocated then
      if file.first_cluster + clusters_allocated = st.next_cluster ∧
          st.next_cluster + (clusters_needed - clusters_allocated) ≤
            PICOVD_DYNAMIC_AREA_END_CLUSTER then
        finish { st with
                 next_cluster := st.next_cluster + (clusters_needed - clusters_allocated) }
      else (st, changed_flag, file, -1)
    else finish st
  else finish st

/-! ## MSC/SCSI adapter (vd_usb_msc_cb.c)

The TinyUSB-facing callbacks are modelled as pure state transformers.
The state carries the sense data last queued with tud_msc_set_sense,
the contents-changed flag, and the volume state vol (everything that
determines the synthesised sector bytes: serial number, registry, ...),
kept abstract as a type parameter because none of these callbacks reads
or writes it. -/

/-- SCSI opcode and sense constants, from class/msc/msc.h (TinyUSB) and
the fallback defines at the top of vd_usb_msc_cb.c. -/
def SCSI_CMD_TEST_UNIT_READY : Nat := 0x00
def SCSI_CMD_FORMAT_UNIT : Nat := 0x04
def SCSI_CMD_INQUIRY : Nat := 0x12
def SCSI_CMD_MODE_SELECT_6 : Nat := 0x15
def SCSI_CMD_BLANK : Nat := 0x19
def SCSI_CMD_READ_CAPACITY_10 : Nat := 0x25
def SCSI_CMD_UNMAP : Nat := 0x42
def SCSI_CMD_MODE_SELECT_10 : Nat := 0x55
def SCSI_CMD_MODE_SENSE_10 : Nat := 0x5A
def SCSI_CMD_WRITE16 : Nat := 0x8A
def SCSI_CMD_WRITE12 : Nat := 0xAA
def SCSI_SENSE_UNIT_ATTENTION : Nat := 0x06
def SCSI_SENSE_DATA_PROTECT : Nat := 0x07
def SCSI_ASC_WRITE_PROTECTED : Nat := 0x27
def SCSI_ASC_MEDIUM_MAY_HAVE_CHANGED : Nat := 0x28
def SCSI_ASCQ_WRITE_PROTECTED : Nat := 0x00

/-- TinyUSB callback return codes: an error (causes CHECK CONDITION
toward the host) and the fall-through to default handling. -/
def TUD_MSC_RET_ERROR : Int := -1
def TUD_MSC_RET_CALL_DEFAULT : Int := -2

/-- Adapter state: abstract volume state, queued sense data
(key, asc, ascq) and the contents-changed flag of vd_usb_msc_cb.c. -/
structure msc_cb_state (σ : Type) where
  vol : σ
  sense : Option (Nat × Nat × Nat)
  contents_changed_flag : Bool
deriving Repr, DecidableEq

/-- vd_virtual_disk_contents_changed from vd_usb_msc_cb.c: sets the
contents-changed flag.  The hard_reset branch additionally bounces the
USB connection (tud_disconnect / sleep / tud_connect), which does not
change the adapter state modelled here. -/
def vd_virtual_disk_contents_changed {σ : Type} (hard_reset : Bool)
    (st : msc_cb_state σ) : msc_cb_state σ :=
  { st with contents_changed_flag := true }

/-- tud_msc_test_unit_ready_cb from vd_usb_msc_cb.c: always ready. -/
def tud_msc_test_unit_ready_cb : Bool :=
  true

/-- tud_msc_write10_cb from vd_usb_msc_cb.c: queues DATA PROTECT /
WRITE PROTECTED sense and fails the command. -/
def tud_msc_write10_cb {σ : Type} (st : msc_cb_state σ) : msc_cb_state σ × Int :=
  ({ st with sense := some (SCSI_SENSE_DATA_PROTECT, SCSI_ASC_WRITE_PROTECTED,
                            SCSI_ASCQ_WRITE_PROTECTED) },
   TUD_MSC_RET_ERROR)

/-- tud_msc_scsi_pre_cb from vd_usb_msc_cb.c, dispatching on the
command opcode scsi_cmd[0].  INQUIRY builds the write-protected inquiry
response into the transfer buffer (not part of the adapter state) and
returns its size; TEST UNIT READY and READ CAPACITY consume the
contents-changed flag into a UNIT ATTENTION sense; everything else
falls through to default handling. -/
def tud_msc_scsi_pre_cb {σ : Type} (cmd : Nat) (st : msc_cb_state σ) :
    msc_cb_state σ × Int :=
  if cmd = SCSI_CMD_INQUIRY then
    (st, 36)
  else if cmd = SCSI_CMD_TEST_UNIT_READY ∨ cmd = SCSI_CMD_READ_CAPACITY_10 then
    if st.contents_changed_flag then
      ({ st with
         sense := some (SCSI_SENSE_UNIT_ATTENTION, SCSI_ASC_MEDIUM_MAY_HAVE_CHANGED, 0x00),
         contents_changed_flag := false },
       TUD_MSC_RET_ERROR)
    else (st, TUD_MSC_RET_CALL_DEFAULT)
  else (st, TUD_MSC_RET_CALL_DEFAULT)

/-- tud_msc_scsi_cb from vd_usb_msc_cb.c: rejects every
medium-altering command with DATA PROTECT / WRITE PROTECTED sense,
answers MODE SENSE (10) with the 8-byte write-protected header, and
reports every other command as unrecognised (-1). -/
def tud_msc_scsi_cb {σ : Type} (cmd : Nat) (st : msc_cb_state σ) :
    msc_cb_state σ × Int :=
  if cmd = SCSI_CMD_MODE_SELECT_6 ∨ cmd = SCSI_CMD_MODE_SELECT_10 ∨
      cmd = SCSI_CMD_UNMAP ∨ cmd = SCSI_CMD_FORMAT_UNIT ∨ cmd = SCSI_CMD_BLANK ∨
      cmd = SCSI_CMD_WRITE12 ∨ cmd = SCSI_CMD_WRITE16 then
    ({ st with sense := some (SCSI_SENSE_DATA_PROTECT, SCSI_ASC_WRITE_PROTECTED,
                              SCSI_ASCQ_WRITE_PROTECTED) },
     TUD_MSC_RET_ERROR)
  else if cmd = SCSI_CMD_MODE_SENSE_10 then
    (st, 8)
  else (st, -1)

/-- One TEST UNIT READY command as executed by the TinyUSB stack:
tud_msc_scsi_pre_cb runs first; if it falls through to default
handling, the stack consults tud_msc_test_unit_ready_cb (true means
command success); otherwise the command fails with CHECK CONDITION.
Returns the new state and whether the command succeeded. -/
def test_unit_ready_step {σ : Type} (st : msc_cb_state σ) : msc_cb_state σ × Bool :=
  let r := tud_msc_scsi_pre_cb SCSI_CMD_TEST_UNIT_READY st
  if r.2 = TUD_MSC_RET_CALL_DEFAULT then (r.1, tud_msc_test_unit_ready_cb)
  else (r.1, false)

/-! ## Checksum kernels (vd_exfat_consts.cpp, vd_virtual_disk.c,
vd_exfat_directory.c) -/

/-- ror32 from vd_exfat_consts.cpp: rotate a 32-bit value right by one
bit, (x >> 1) | (x << 31), faithful for x < 2^32. -/
def ror32 (x : Nat) : Nat :=
  x / 2 + x % 2 * 2 ^ 31

/-- Rotate a 32-bit value right by k bits:
(x >> k) | (x << (32 - k)) under 32-bit truncation, faithful for
x < 2^32 and 0 < k < 32 (used with k = EXFAT_VBR_SUFFIX_ROT). -/
def ror32_by (k x : Nat) : Nat :=
  x / 2 ^ k + x % 2 ^ k * 2 ^ (32 - k)

/-! ## Boot sector and VBR checksum (vd_exfat_consts.cpp,
vd_virtual_disk.c) -/

/-- exfat_boot_sector_data from vd_exfat_consts.cpp: the 120 static
bytes of the exFAT boot sector through PercentInUse (VolumeSerialNumber
at 100..103 zero in the static data, filled at runtime), with the
configured geometry constants expanded little-endian. -/
def exfat_boot_sector_data : List Nat := [
    0xEB, 0x76, 0x90, 0x45, 0x58, 0x46, 0x41, 0x54, 0x20, 0x20,
    0x20, 0x00, 0x00, 0x00, 0x00, 0x00, 0x00, 0x00, 0x00, 0x00,
    0x00, 0x00, 0x00, 0x00, 0x00, 0x00, 0x00, 0x00, 0x00, 0x00,
    0x00, 0x00, 0x00, 0x00, 0x00, 0x00, 0x00, 0x00, 0x00, 0x00,
    0x00, 0x00, 0x00, 0x00, 0x00, 0x00, 0x00, 0x00, 0x00, 0x00,
    0x00, 0x00, 0x00, 0x00, 0x00, 0x00, 0x00, 0x00, 0x00, 0x00,
    0x00, 0x00, 0x00, 0x00, 0x00, 0x00, 0x00, 0x00, 0x00, 0x00,
    0x00, 0x00, 0x00, 0x00, 0x20, 0x00, 0x00, 0x00, 0x00, 0x00,
    0x18, 0x00, 0x00, 0x00, 0x00, 0x08, 0x00, 0x00, 0x10, 0x80,
    0x00, 0x00, 0xFE, 0xEF, 0x03, 0x00, 0x0B, 0x00, 0x00, 0x00,
    0x00, 0x00, 0x00, 0x00, 0x00, 0x01, 0x00, 0x00, 0x09, 0x03,
    0x01, 0x00, 0xFF, 0x00, 0x00, 0x00, 0x00, 0x00, 0x00, 0x00]

def exfat_boot_sector_data_length : Nat := 120

/-- gen_zero_sector from vd_virtual_disk.c: zero-fill the slice. -/
def gen_zero_sector (bufsize : Nat) : List Nat :=
  List.replicate bufsize 0

/-- gen_ones_sector from vd_virtual_disk.c: 0xFF-fill the slice. -/
def gen_ones_sector (bufsize : Nat) : List Nat :=
  List.replicate bufsize 0xFF

/-- gen_extb_sector_signature from vd_virtual_disk.c: place the
signature bytes 0x55 at 510 and 0xAA at 511 into an existing slice
buffer when they fall inside [offset, offset+bufsize) according to the
source's conditions (note the strict offset < pos comparisons). -/
def gen_extb_sector_signature (offset : Nat) (buffer : List Nat) (bufsize : Nat) :
    List Nat :=
  let b1 := if offset + bufsize > 510 ∧ offset < 510 then buffer.set (510 - offset) 0x55
            else buffer
  if offset + bufsize > 511 ∧ offset < 511 then b1.set (511 - offset) 0xAA else b1

/-- gen_extb_sector from vd_virtual_disk.c: zeros plus signature. -/
def gen_extb_sector (offset bufsize : Nat) : List Nat :=
  gen_extb_sector_signature offset (gen_zero_sector bufsize) bufsize

/- get_volume_serial_number is the 32-bit board id; modelled as the
parameter serial of the generators below. -/

/-- gen_boot_sector from vd_virtual_disk.c for a slice
[offset, offset+bufsize): (1) copy from the 120 static header bytes,
(2) overwrite the VolumeSerialNumber bytes at absolute 100..103 when
the source's guard offset <= 100 < offset+bufsize holds, (3) zero-fill
the rest, (4) place the 510/511 signature bytes. -/
def gen_boot_sector (serial offset bufsize : Nat) : List Nat :=
  let copied := if offset < exfat_boot_sector_data_length then
      (exfat_boot_sector_data.drop offset).take
        (min (exfat_boot_sector_data_length - offset) bufsize)
    else []
  let base := copied ++ List.replicate (bufsize - copied.length) 0
  let withSerial := if offset ≤ 100 ∧ offset + bufsize > 100 then
      (List.range 4).foldl (fun b i =>
        if offset ≤ 100 + i ∧ 100 + i < offset + bufsize then
          b.set (100 + i - offset) (serial / 2 ^ (8 * i) % 256)
        else b) base
    else base
  gen_extb_sector_signature offset withSerial bufsize

/-- sector_byte from vd_exfat_consts.cpp: the byte at (lba, off) of the
Volume Boot Region as the compile-time checksum sees it (serial number
zero, VolumeFlags and PercentInUse zeroed). -/
def sector_byte (lba off : Nat) : Nat :=
  if lba = 0 then
    if off = 106 ∨ off = 107 ∨ off = 112 then 0
    else if off < exfat_boot_sector_data_length then exfat_boot_sector_data.getD off 0
    else 0
  else if 1 ≤ lba ∧ lba ≤ 8 then
    if off = 510 then 0x55 else if off = 511 then 0xAA else 0
  else 0

/-- compute_vbr_checksum from vd_exfat_consts.cpp: the ROR32-and-add
checksum over the byte range from (start_lba, start_offset) to
(start_lba + lba_count - 1, next_offset), skipping bytes 106, 107 and
112 of sector 0. -/
def compute_vbr_checksum (start_lba start_offset lba_count next_offset : Nat) : Nat :=
  (List.range lba_count).foldl (fun sum i =>
    let lba := start_lba + i
    let off_begin := if i = 0 then start_offset else 0
    let off_end := if i = lba_count - 1 then next_offset else 512
    (List.range' off_begin (off_end - off_begin)).foldl (fun s off =>
      if lba = 0 ∧ (off = 106 ∨ off = 107 ∨ off = 112) then s
      else (ror32 s + sector_byte lba off) % 2 ^ 32) sum) 0

/-- EXFAT_VBR_SUFFIX_ROT from vd_exfat_consts.cpp: 5528 mod 32 = 24
(5528 = 11*512 - 104 counts the skipped bytes 106, 107, 112 as well). -/
def EXFAT_VBR_SUFFIX_ROT : Nat := (11 * 512 - 104) % 32

/-- The compile-time constant named EXFAT_VBR_CHECKSUM_PREFIX in
vd_exfat_consts.cpp: checksum of bytes [0, 100) of sector 0. -/
def EXFAT_VBR_CHECKSUM_PRE : Nat := compute_vbr_checksum 0 0 1 100

/-- EXFAT_VBR_CHECKSUM_SUFFIX from vd_exfat_consts.cpp: checksum of
byte 104 of sector 0 through the end of sector 10. -/
def EXFAT_VBR_CHECKSUM_SUFFIX : Nat := compute_vbr_checksum 0 104 11 512

/-- tud_msc_read10_cb(0, lba, 0, buf, 512) for lba in 0..10, as invoked
by compute_vbr_checksum_runtime_simple: the lba_regions table sends
lba 0 to gen_boot_sector, lba 1..8 to gen_extb_sector and lba 9..10 to
gen_zero_sector. -/
def vbr_read10 (serial lba : Nat) : List Nat :=
  if lba < 1 then gen_boot_sector serial 0 512
  else if lba < 9 then gen_extb_sector 0 512
  else gen_zero_sector 512

/-- The inner loop of compute_vbr_checksum_runtime_simple: walk the
bytes of one generated sector, skipping offsets 106, 107 and 112 of
sector 0, rotating right then adding each byte modulo 2^32. -/
def vbr_fold_sector (lba : Nat) (sector : List Nat) (sum0 : Nat) : Nat :=
  (sector.foldl (fun p b =>
    (p.1 + 1,
     if lba = 0 ∧ (p.1 = 106 ∨ p.1 = 107 ∨ p.1 = 112) then p.2
     else (ror32 p.2 + b) % 2 ^ 32)) ((0 : Nat), sum0)).2

/-- compute_vbr_checksum_runtime_simple from vd_virtual_disk.c:
iterate the generated sectors 0..10. -/
def compute_vbr_checksum_runtime_simple (serial : Nat) : Nat :=
  (List.range 11).foldl (fun sum lba => vbr_fold_sector lba (vbr_read10 serial lba) sum) 0

/-- compute_vbr_checksum_runtime_optimised from vd_virtual_disk.c:
start from the compile-time prefix constant, fold in the four
VolumeSerialNumber bytes, rotate right by EXFAT_VBR_SUFFIX_ROT, add the
compile-time suffix constant.  (The C function is missing its final
return statement; this models the value of sum at the end of its
body.) -/
def compute_vbr_checksum_runtime_optimised (serial : Nat) : Nat :=
  let sum0 := EXFAT_VBR_CHECKSUM_PRE
  let sum1 := (List.range 4).foldl
    (fun s i => (ror32 s + serial / 2 ^ (8 * i) % 256) % 2 ^ 32) sum0
  (ror32_by EXFAT_VBR_SUFFIX_ROT sum1 + EXFAT_VBR_CHECKSUM_SUFFIX) % 2 ^ 32

/-- compute_vbr_checksum_runtime from vd_virtual_disk.c: the simple
version (the optimised one is flagged non-working and unused). -/
def compute_vbr_checksum_runtime (serial : Nat) : Nat :=
  compute_vbr_checksum_runtime_simple serial

/-- gen_cksm_sector from vd_virtual_disk.c: fill the requested slice
with the cached 32-bit VBR checksum pattern, each byte selected by its
absolute position modulo 4 (little-endian lanes). -/
def gen_cksm_sector (serial offset bufsize : Nat) : List Nat :=
  let checksum_value := compute_vbr_checksum_runtime serial
  (List.range bufsize).map (fun i =>
    checksum_value / 2 ^ (8 * ((offset + i) % 4)) % 256)

/-! ## Up-case table (vd_exfat_consts.cpp, vd_virtual_disk.c) -/

/-- exfat_upcase_table_compressed from vd_exfat_consts.cpp: the unused
static 30-word compressed table (identity run marker 0xFFFF, 0x61 (the
character a), the 26 explicit a-to-A mappings, identity run marker
0xFFFF, 5). -/
def exfat_upcase_table_compressed : List Nat := [
    0xFFFF, 0x61,
    0x41, 0x42, 0x43, 0x44, 0x45, 0x46, 0x47, 0x48,
    0x49, 0x4A, 0x4B, 0x4C, 0x4D, 0x4E, 0x4F, 0x50,
    0x51, 0x52, 0x53, 0x54, 0x55, 0x56, 0x57, 0x58,
    0x59, 0x5A,
    0xFFFF, 5]

/-- exfat_upcase_table from vd_exfat_consts.cpp: the exported
uncompressed 128-entry table (the symbol actually linked into
gen_upcs_sector and compute_upcase_checksum). -/
def exfat_upcase_table : List Nat := [
    0x0000, 0x0001, 0x0002, 0x0003, 0x0004, 0x0005, 0x0006, 0x0007,
    0x0008, 0x0009, 0x000A, 0x000B, 0x000C, 0x000D, 0x000E, 0x000F,
    0x0010, 0x0011, 0x0012, 0x0013, 0x0014, 0x0015, 0x0016, 0x0017,
    0x0018, 0x0019, 0x001A, 0x001B, 0x001C, 0x001D, 0x001E, 0x001F,
    0x0020, 0x0021, 0x0022, 0x0023, 0x0024, 0x0025, 0x0026, 0x0027,
    0x0028, 0x0029, 0x002A, 0x002B, 0x002C, 0x002D, 0x002E, 0x002F,
    0x0030, 0x0031, 0x0032, 0x0033, 0x0034, 0x0035, 0x0036, 0x0037,
    0x0038, 0x0039, 0x003A, 0x003B, 0x003C, 0x003D, 0x003E, 0x003F,
    0x0040, 0x0041, 0x0042, 0x0043, 0x0044, 0x0045, 0x0046, 0x0047,
    0x0048, 0x0049, 0x004A, 0x004B, 0x004C, 0x004D, 0x004E, 0x004F,
    0x0050, 0x0051, 0x0052, 0x0053, 0x0054, 0x0055, 0x0056, 0x0057,
    0x0058, 0x0059, 0x005A, 0x005B, 0x005C, 0x005D, 0x005E, 0x005F,
    0x0060, 0x0041, 0x0042, 0x0043, 0x0044, 0x0045, 0x0046, 0x0047,
    0x0048, 0x0049, 0x004A, 0x004B, 0x004C, 0x004D, 0x004E, 0x004F,
    0x0050, 0x0051, 0x0052, 0x0053, 0x0054, 0x0055, 0x0056, 0x0057,
    0x0058, 0x0059, 0x005A, 0x007B, 0x007C, 0x007D, 0x007E, 0x007F]

/-- EXFAT_UPCASE_TABLE_COMPRESSED from vd_exfat_params.h. -/
def EXFAT_UPCASE_TABLE_COMPRESSED : Bool := true

/-- The number of 16-bit entries of exfat_upcase_table
(exfat_upcase_table_len / sizeof(uint16_t) = 128). -/
def exfat_upcase_table_entry_count : Nat := 128

/-- Total number of 16-bit words of the on-disk up-case region:
1 cluster of 8 sectors of 512 bytes = 2048 words (4096 bytes). -/
def upcase_total_words : Nat := 8 * 512 / 2

/-- The word gen_upcs_sector emits at word index idx of the up-case
region: table entries below the table length, then 0 because
EXFAT_UPCASE_TABLE_COMPRESSED is set (identity idx otherwise). -/
def gen_upcs_word (idx : Nat) : Nat :=
  if idx < exfat_upcase_table_entry_count then exfat_upcase_table.getD idx 0
  else if EXFAT_UPCASE_TABLE_COMPRESSED then 0
  else idx

/-- gen_upcs_sector from vd_virtual_disk.c for a 2-byte-aligned slice:
emits word_count = bufsize/2 16-bit words little-endian starting at
word index (lba - EXFAT_UPCASE_TABLE_START_LBA)*256 + offset/2. -/
def gen_upcs_sector (lba offset bufsize : Nat) : List Nat :=
  let base_index := (lba - EXFAT_UPCASE_TABLE_START_LBA) * 256
  let start_word := offset / 2
  (List.range (bufsize / 2)).flatMap (fun i =>
    let v := gen_upcs_word (base_index + start_word + i)
    [v % 256, v / 256 % 256])

/-- compute_upcase_checksum from vd_exfat_consts.cpp: the build-time
TableChecksum stored in the up-case table directory entry; ROR32-and-
add over the 4096 bytes of the region, continuing the 128 table words
with the identity word (the low 16 bits of the word index). -/
def compute_upcase_checksum : Nat :=
  (List.range (upcase_total_words * 2)).foldl (fun sum byte_idx =>
    let word_idx := byte_idx / 2
    let word := if word_idx < exfat_upcase_table_entry_count then
        exfat_upcase_table.getD word_idx 0
      else word_idx
    let b := if byte_idx % 2 = 1 then word / 256 % 256 else word % 256
    (ror32 sum + b) % 2 ^ 32) 0

/-- exfat_upcase_table_checksum from vd_exfat_consts.cpp. -/
def exfat_upcase_table_checksum : Nat := compute_upcase_checksum

/-- The ROR32-and-add checksum over the up-case table bytes exactly as
gen_upcs_sector emits them on disk (table words then zero words). -/
def upcase_emitted_checksum : Nat :=
  (List.range (upcase_total_words * 2)).foldl (fun sum byte_idx =>
    let word := gen_upcs_word (byte_idx / 2)
    let b := if byte_idx % 2 = 1 then word / 256 % 256 else word % 256
    (ror32 sum + b) % 2 ^ 32) 0

/-! ## Memory-mapped file generators (vd_files_rp2350.c)

The device memory is modelled as an arbitrary byte-valued function of
the 32-bit address. -/

/-- vd_file_sector_get_bootrom from vd_files_rp2350.c: memcpy of
bufsize bytes starting at device address
(lba - PICOVD_BOOTROM_START_LBA) << 9.  Note that the byte offset
argument of the generator contract does not enter the address
computation in the source. -/
def vd_file_sector_get_bootrom (mem : Nat → Nat) (lba offset bufsize : Nat) :
    List Nat :=
  let address := (lba - PICOVD_BOOTROM_START_LBA) * 512
  (List.range bufsize).map (fun i => mem (address + i))

/-- The slice of the bootrom region's logical 512-byte sector that the
generator contract of the spec (section 4.1 and 4.4) requires
vd_file_sector_get_bootrom to deliver: bytes
[byte_offset, byte_offset+len) of the sector whose bytes are the device
memory at (lba - PICOVD_BOOTROM_START_LBA)*512 .. +512. -/
def vd_bootrom_contract_slice (mem : Nat → Nat) (lba offset bufsize : Nat) :
    List Nat :=
  (List.range bufsize).map (fun i =>
    mem ((lba - PICOVD_BOOTROM_START_LBA) * 512 + offset + i))

/-! ## LBA region table and dispatcher (vd_virtual_disk.c) -/

/-- Tags naming the handler functions installed in lba_regions. -/
inductive lba_handler where
  | boot | extb | zero | cksm | fat0 | ones | upcs
  | dir_fixed | dir_dynamic | dyn_area | bootrom | flash | sram
deriving Repr, DecidableEq

/-- The lba_regions table from vd_virtual_disk.c with the shipped
configuration's constants resolved: each entry is the handler and the
first LBA after its region. -/
def lba_regions : List (lba_handler × Nat) := [
  (.boot, 1), (.extb, 9), (.zero, 11), (.cksm, 12),
  (.boot, 13), (.extb, 21), (.zero, 23), (.cksm, 24),
  (.fat0, EXFAT_FAT_REGION_START_LBA + 1),
  (.zero, EXFAT_CLUSTER_HEAP_START_LBA),
  (.ones, EXFAT_ALLOCATION_BITMAP_START_LBA + EXFAT_ALLOCATION_BITMAP_LENGTH_SECTORS),
  (.upcs, EXFAT_UPCASE_TABLE_START_LBA + EXFAT_UPCASE_TABLE_LENGTH_SECTORS),
  (.zero, EXFAT_ROOT_DIR_START_LBA),
  (.dir_fixed, EXFAT_ROOT_DIR_START_LBA + 1),
  (.dir_dynamic, EXFAT_ROOT_DIR_START_LBA + EXFAT_ROOT_DIR_LENGTH_SECTORS),
  (.dyn_area, PICOVD_DYNAMIC_AREA_END_LBA),
  (.zero, PICOVD_BOOTROM_START_LBA),
  (.bootrom, PICOVD_BOOTROM_START_LBA + PICOVD_BOOTROM_SIZE_BYTES / 512),
  (.zero, PICOVD_FLASH_START_LBA),
  (.flash, PICOVD_FLASH_START_LBA + PICOVD_FLASH_SIZE_BYTES / 512),
  (.zero, PICOVD_SRAM_START_LBA),
  (.sram, PICOVD_SRAM_START_LBA + PICOVD_SRAM_SIZE_BYTES / 512)]

/-- The region lookup of vd_virtual_disk_read: the handler of the first
table entry with lba < next_lba, none when the LBA is past the last
defined region (in which case the read zero-fills). -/
def vd_virtual_disk_read_handler (lba : Nat) : Option lba_handler :=
  (lba_regions.find? (fun r => lba < r.2)).map (fun r => r.1)

/-! ## Root directory assembler (vd_exfat_directory.c) -/

/-- Directory entry type codes from vd_exfat_dirs.h. -/
def exfat_entry_type_unused : Nat := 0x01
def exfat_entry_type_volume_label : Nat := 0x83
def exfat_entry_type_file_directory : Nat := 0x85
def exfat_entry_type_volume_guid : Nat := 0xA0

/-- The loop body of exfat_dirs_compute_setchecksum: 16-bit rotate
right by one then add, as the C expression
((sum & 1) ? 0x8000 : 0) + (sum >> 1) + byte truncated to uint16_t. -/
def setchecksum_step (sum b : Nat) : Nat :=
  ((if sum % 2 = 1 then 0x8000 else 0) + sum / 2 + b) % 2 ^ 16

/-- exfat_dirs_compute_setchecksum walking the bytes from index i,
skipping indices 2 and 3. -/
def setchecksum_aux : List Nat → Nat → Nat → Nat
  | [], _, sum => sum
  | b :: rest, i, sum =>
    setchecksum_aux rest (i + 1) (if i = 2 ∨ i = 3 then sum else setchecksum_step sum b)

/-- exfat_dirs_compute_setchecksum from vd_exfat_directory.c over a
whole entry set, skipping bytes 2 and 3 (where the checksum sits). -/
def exfat_dirs_compute_setchecksum (entries : List Nat) : Nat :=
  setchecksum_aux entries 0 0

/-- The entries_data[0] test of exfat_generate_root_dir_fixed_sector:
the SetChecksum bytes are spliced only for primary entry types
file-directory (0x85) and volume-GUID (0xA0). -/
def set_needs_checksum (entries : List Nat) : Bool :=
  entries.getD 0 0 == exfat_entry_type_file_directory ||
  entries.getD 0 0 == exfat_entry_type_volume_guid

/-- Phase 3 of exfat_generate_root_dir_fixed_sector: splice the two
SetChecksum bytes into the chunk just copied from an entry set
(copied from entry-set offset eo, copy_len bytes long), under the
source's in-range conditions. -/
def splice_setchecksum (chunk : List Nat) (eo copy_len checksum : Nat)
    (needs : Bool) : List Nat :=
  let c1 := if needs ∧ eo ≤ 2 ∧ copy_len > 2 - eo then
      chunk.set (2 - eo) (checksum % 256)
    else chunk
  if needs ∧ eo ≤ 3 ∧ copy_len > 3 - eo then c1.set (3 - eo) (checksum / 256 % 256)
  else c1

/-- The loop of exfat_generate_root_dir_fixed_sector over the
exfat_root_dir_entries table, reformulated with the running difference
d = offset - idx (clamped at zero) instead of the absolute offset and
idx, followed by the final 0x01 fill.  Each table row is the stored
byte list of one entry set; the lazily cached checksum is computed on
the fly (the cache always holds exfat_dirs_compute_setchecksum of the
stored bytes). -/
def root_dir_fixed_core : List (List Nat) → Nat → Nat → List Nat
  | [], _, len => List.replicate len exfat_entry_type_unused
  | e :: rest, d, len =>
    if e.length ≤ d then root_dir_fixed_core rest (d - e.length) len
    else
      let eo := d
      let copy_len := min (e.length - eo) len
      let chunk := splice_setchecksum ((e.drop eo).take copy_len) eo copy_len
        (exfat_dirs_compute_setchecksum e) (set_needs_checksum e)
      if len - copy_len = 0 then chunk
      else chunk ++ root_dir_fixed_core rest 0 (len - copy_len)

/-- exfat_generate_root_dir_fixed_sector from vd_exfat_directory.c for
a slice [offset, offset+bufsize) of the fixed root-directory sector,
over the table of stored entry sets. -/
def exfat_generate_root_dir_fixed_sector (sets : List (List Nat))
    (offset bufsize : Nat) : List Nat :=
  root_dir_fixed_core sets offset bufsize

/-- An entry set as it is emitted on disk: the stored bytes with the
SetChecksum spliced into bytes 2 and 3 when the primary entry type
requires one. -/
def emitted_entry_set (e : List Nat) : List Nat :=
  if set_needs_checksum e then
    (e.set 2 (exfat_dirs_compute_setchecksum e % 256)).set 3
      (exfat_dirs_compute_setchecksum e / 256 % 256)
  else e

/-- The byte at absolute position p of the logical fixed
root-directory sector: the concatenation of the emitted entry sets
followed by the 0x01 unused fill. -/
def root_dir_fixed_sector_byte : List (List Nat) → Nat → Nat
  | [], _ => exfat_entry_type_unused
  | e :: rest, p =>
    if p < e.length then (emitted_entry_set e).getD p 0
    else root_dir_fixed_sector_byte rest (p - e.length)

/-- The SetChecksum placement step of
exfat_generate_root_dir_dynamic_sector (and of
files_changing_build_file_partition_entry_set): compute the checksum
over the (1 + secondary_count) * 32 bytes of the just-built entry set
and store it into bytes 2 and 3 of the primary entry (the little-
endian uint16 set_checksum field).  buf is the scratch entry-set
buffer, sc its primary entry's secondary_count. -/
def dynamic_set_place_checksum (buf : List Nat) (sc : Nat) : List Nat :=
  let checksum := exfat_dirs_compute_setchecksum (buf.take ((1 + sc) * 32))
  (buf.set 2 (checksum % 256)).set 3 (checksum / 256 % 256)

/-- The slice copy of exfat_generate_root_dir_dynamic_sector: byte i of
the requested slice is byte offset+i of the scratch buffer holding the
built entry set. -/
def dynamic_sector_slice (buf : List Nat) (offset bufsize : Nat) : List Nat :=
  (List.range bufsize).map (fun i => buf.getD (offset + i) 0)

/-! ## Positional reformulations used by the proofs

The checksum loops above are faithful list-fold translations of the C
loops.  For kernel-friendly evaluation the proofs below re-express them
as tail recursions over a byte-position function, evaluated in chunks;
the bridge lemmas in the theorem section prove the reformulations equal
to the folds. -/

/-- A run of the ROR32-and-add kernel over byte positions
[i, i+n), skipping the positions selected by skip: the common shape of
the VBR and up-case checksum loops. -/
def ror_add_run (byte : Nat → Nat) (skip : Nat → Bool) : Nat → Nat → Nat → Nat
  | _, 0, s => s
  | i, n + 1, s =>
    ror_add_run byte skip (i + 1) n
      (if skip i then s else (ror32 s + byte i) % 2 ^ 32)

/-- The offsets the VBR checksum skips in sector lba: bytes 106, 107
and 112 of sector 0 (VolumeFlags and PercentInUse). -/
def vbr_skip (lba off : Nat) : Bool :=
  lba == 0 && (off == 106 || off == 107 || off == 112)

/-- Byte p of the full boot sector gen_boot_sector serial 0 512 in
closed form: signature bytes at 510/511, VolumeSerialNumber
little-endian at 100..103, the 120 static bytes, zero elsewhere. -/
def gen_boot_sector_byte (serial p : Nat) : Nat :=
  if p = 510 then 0x55
  else if p = 511 then 0xAA
  else if 100 ≤ p ∧ p < 104 then serial / 2 ^ (8 * (p - 100)) % 256
  else if p < exfat_boot_sector_data_length then exfat_boot_sector_data.getD p 0
  else 0

/-- Byte off of the generated sector lba (for lba < 11), i.e. of
vbr_read10 serial lba, in closed form. -/
def vbr_sector_byte (serial lba off : Nat) : Nat :=
  if lba < 1 then gen_boot_sector_byte serial off
  else if lba < 9 then (if off = 510 then 0x55 else if off = 511 then 0xAA else 0)
  else 0

/-- The byte compute_upcase_checksum feeds into the kernel at position
byte_idx: the 128 table words continued by identity words, low byte
then high byte. -/
def upcase_stored_byte (byte_idx : Nat) : Nat :=
  let word_idx := byte_idx / 2
  let word := if word_idx < exfat_upcase_table_entry_count then
      exfat_upcase_table.getD word_idx 0
    else word_idx
  if byte_idx % 2 = 1 then word / 256 % 256 else word % 256

/-- The byte the up-case generator emits at position byte_idx of the
up-case region: the 128 table words continued by zero words. -/
def upcase_emitted_byte (byte_idx : Nat) : Nat :=
  let word := gen_upcs_word (byte_idx / 2)
  if byte_idx % 2 = 1 then word / 256 % 256 else word % 256

/-- The invariant relating a ring-buffer state reached from the
initial state by writes of at most the capacity K to the concatenated
written stream S: tot counts the stream, the capacity is K, the write
index is tot mod K, and every byte of the live window
[max(0, tot - K), tot) sits in the backing array at its stream index
modulo K. -/
def ring_window_inv (K : Nat) (S : List Nat) (rb : ring_buffer_t) : Prop :=
  rb.tot = S.length ∧ rb.data.length = K ∧ rb.ptr = S.length % K ∧
  ∀ v, v < S.length → S.length ≤ v + K → rb.data.getD (v % K) 0 = S.getD v 0

/-!
# Theorems

The claim theorems, their witnesses and counterexamples, and the shared
helper lemmas they build on.
-/

/-- Chunking law for ror_add_run: a run of a + b positions is the run
of the last b positions started from the run of the first a. -/
theorem ror_add_run_add (byte : Nat → Nat) (skip : Nat → Bool) (a : Nat) :
    ∀ i b s, ror_add_run byte skip i (a + b) s
      = ror_add_run byte skip (i + a) b (ror_add_run byte skip i a s) := by
  induction a with
  | zero => intro i b s; simp [ror_add_run]
  | succ a ih =>
    intro i b s
    have h1 : a + 1 + b = (a + b) + 1 := by omega
    rw [h1]
    simp only [ror_add_run]
    rw [ih]
    have h2 : i + 1 + a = i + (a + 1) := by omega
    rw [h2]

/-- The inner loop of compute_vbr_checksum over offsets
[ob, ob + n) of sector lba equals the positional run over
sector_byte. -/
theorem cvc_inner_eq_run (lba : Nat) :
    ∀ n ob s, (List.range' ob n).foldl (fun s off =>
        if lba = 0 ∧ (off = 106 ∨ off = 107 ∨ off = 112) then s
        else (ror32 s + sector_byte lba off) % 2 ^ 32) s
      = ror_add_run (sector_byte lba) (vbr_skip lba) ob n s := by
  intro n
  induction n with
  | zero => intro ob s; simp [ror_add_run, List.range']
  | succ n ih =>
    intro ob s
    simp only [List.range', List.foldl_cons, ror_add_run]
    rw [ih]
    congr 1
    by_cases h : lba = 0 ∧ (ob = 106 ∨ ob = 107 ∨ ob = 112)
    · rw [if_pos h, if_pos]
      simp only [vbr_skip]
      obtain ⟨h0, hoff⟩ := h
      subst h0
      rcases hoff with h' | h' | h' <;> subst h' <;> decide
    · rw [if_neg h, if_neg]
      simp only [vbr_skip, Bool.and_eq_true, Bool.or_eq_true, beq_iff_eq]
      intro hc
      exact h ⟨hc.1, by tauto⟩

/-- The lba = 0 instance of the inner compute_vbr_checksum loop with
its condition pre-simplified (the shape left by simp). -/
theorem cvc_inner_eq_run_zero :
    ∀ n ob s, (List.range' ob n).foldl (fun s off =>
        if off = 106 ∨ off = 107 ∨ off = 112 then s
        else (ror32 s + sector_byte 0 off) % 2 ^ 32) s
      = ror_add_run (sector_byte 0) (vbr_skip 0) ob n s := by
  intro n
  induction n with
  | zero => intro ob s; simp [ror_add_run, List.range']
  | succ n ih =>
    intro ob s
    simp only [List.range', List.foldl_cons, ror_add_run]
    rw [ih]
    congr 1
    by_cases h : ob = 106 ∨ ob = 107 ∨ ob = 112
    · rw [if_pos h, if_pos]
      simp only [vbr_skip]
      rcases h with h' | h' | h' <;> subst h' <;> decide
    · rw [if_neg h, if_neg]
      simp only [vbr_skip, Bool.and_eq_true, Bool.or_eq_true, beq_iff_eq]
      intro hc
      exact h (by tauto)

/-- A plain ROR32-and-add fold over the positions [i, i + n) equals
the positional run with no skips. -/
theorem foldl_range'_ror_add (f : Nat → Nat) :
    ∀ n i s, (List.range' i n).foldl (fun sum idx => (ror32 sum + f idx) % 2 ^ 32) s
      = ror_add_run f (fun _ => false) i n s := by
  intro n
  induction n with
  | zero => intro i s; simp [ror_add_run, List.range']
  | succ n ih =>
    intro i s
    simp only [List.range', List.foldl_cons, ror_add_run, if_neg Bool.false_ne_true]
    rw [ih]

/-- The indexed pair fold of compute_vbr_checksum_runtime_simple over a
sector byte list whose content agrees with a positional byte function
equals the positional run. -/
theorem vbr_pair_fold_eq_run (serial lba : Nat) :
    ∀ (l : List Nat) (i s : Nat),
      (∀ j, j < l.length → l.getD j 0 = vbr_sector_byte serial lba (i + j)) →
      (l.foldl (fun p b =>
        (p.1 + 1,
         if lba = 0 ∧ (p.1 = 106 ∨ p.1 = 107 ∨ p.1 = 112) then p.2
         else (ror32 p.2 + b) % 2 ^ 32)) (i, s)).2
      = ror_add_run (vbr_sector_byte serial lba) (vbr_skip lba) i l.length s := by
  intro l
  induction l with
  | nil => intro i s _; simp [ror_add_run]
  | cons b l ih =>
    intro i s hcont
    have hb : b = vbr_sector_byte serial lba i := by
      have := hcont 0 (by simp)
      simpa using this
    simp only [List.foldl_cons, List.length_cons, ror_add_run]
    rw [ih (i + 1) _ (fun j hj => by
      have := hcont (j + 1) (by simpa using Nat.succ_lt_succ hj)
      simpa [Nat.add_assoc, Nat.add_comm 1 j, Nat.add_left_comm] using this)]
    congr 1
    by_cases h : lba = 0 ∧ (i = 106 ∨ i = 107 ∨ i = 112)
    · rw [if_pos h, if_pos]
      simp only [vbr_skip]
      obtain ⟨h0, hoff⟩ := h
      subst h0
      rcases hoff with h' | h' | h' <;> subst h' <;> decide
    · rw [if_neg h, if_neg, hb]
      simp only [vbr_skip, Bool.and_eq_true, Bool.or_eq_true, beq_iff_eq]
      intro hc
      exact h ⟨hc.1, by tauto⟩

set_option maxRecDepth 4000 in
/-- The full boot sector slice in explicit form: static data, zero
fill, the four serial bytes, the two signature bytes. -/
theorem gen_boot_sector_full_form (serial : Nat) :
    gen_boot_sector serial 0 512 =
      (((((((exfat_boot_sector_data ++ List.replicate 392 0).set
        (100 + 0) (serial / 2 ^ (8 * 0) % 256)).set
        (100 + 1) (serial / 2 ^ (8 * 1) % 256)).set
        (100 + 2) (serial / 2 ^ (8 * 2) % 256)).set
        (100 + 3) (serial / 2 ^ (8 * 3) % 256)).set
        (510 - 0) 0x55).set (511 - 0) 0xAA) := by
  rfl

set_option maxRecDepth 4000 in
/-- Byte j of the full boot sector slice equals the closed-form byte
function. -/
theorem gen_boot_sector_full_getD (serial j : Nat) (hj : j < 512) :
    (gen_boot_sector serial 0 512).getD j 0 = gen_boot_sector_byte serial j := by
  have hdata : exfat_boot_sector_data.length = 120 := by rfl
  have hlen : (exfat_boot_sector_data ++ List.replicate 392 0).length = 512 := by
    simp [hdata]
  rw [gen_boot_sector_full_form, List.getD_eq_getElem?_getD]
  by_cases h510 : j = 510
  · subst h510
    rw [List.getElem?_set_ne (by omega), List.getElem?_set_eq (by simp [List.length_set, List.length_append, hdata])]
    simp [gen_boot_sector_byte]
  by_cases h511 : j = 511
  · subst h511
    rw [List.getElem?_set_eq (by simp [List.length_set, List.length_append, hdata])]
    simp [gen_boot_sector_byte]
  rw [List.getElem?_set_ne (by omega), List.getElem?_set_ne (by omega)]
  by_cases hser : 100 ≤ j ∧ j < 104
  · have hbyte : gen_boot_sector_byte serial j = serial / 2 ^ (8 * (j - 100)) % 256 := by
      simp only [gen_boot_sector_byte, if_neg h510, if_neg h511, if_pos hser]
    obtain ⟨hs1, hs2⟩ := hser
    interval_cases j
    · rw [List.getElem?_set_ne (by omega), List.getElem?_set_ne (by omega),
        List.getElem?_set_ne (by omega), List.getElem?_set_eq (by simp [List.length_set, List.length_append, hdata])]
      simp [hbyte]
    · rw [List.getElem?_set_ne (by omega), List.getElem?_set_ne (by omega),
        List.getElem?_set_eq (by simp [List.length_set, List.length_append, hdata])]
      simp [hbyte]
    · rw [List.getElem?_set_ne (by omega), List.getElem?_set_eq (by simp [List.length_set, List.length_append, hdata])]
      simp [hbyte]
    · rw [List.getElem?_set_eq (by simp [List.length_set, List.length_append, hdata])]
      simp [hbyte]
  · rw [List.getElem?_set_ne (by omega), List.getElem?_set_ne (by omega),
      List.getElem?_set_ne (by omega), List.getElem?_set_ne (by omega),
      List.getElem?_append]
    have hbyte : gen_boot_sector_byte serial j =
        (if j < exfat_boot_sector_data_length then exfat_boot_sector_data.getD j 0 else 0) := by
      simp only [gen_boot_sector_byte, if_neg h510, if_neg h511, if_neg hser]
    rw [hbyte]
    by_cases hj120 : j < 120
    · rw [if_pos (by omega), if_pos (by rw [exfat_boot_sector_data_length]; omega)]
      rw [List.getD_eq_getElem?_getD]
    · rw [if_neg (by omega), if_neg (by rw [exfat_boot_sector_data_length]; omega)]
      rw [List.getElem?_replicate, if_pos (by omega)]
      rfl

set_option maxRecDepth 4000 in
/-- The extended boot sector slice in explicit form. -/
theorem gen_extb_sector_full_form :
    gen_extb_sector 0 512 =
      (((List.replicate 512 0).set (510 - 0) 0x55).set (511 - 0) 0xAA) := by
  rfl

set_option maxRecDepth 4000 in
/-- Byte j of the full extended boot sector. -/
theorem gen_extb_sector_full_getD (j : Nat) (hj : j < 512) :
    (gen_extb_sector 0 512).getD j 0 =
      (if j = 510 then 0x55 else if j = 511 then 0xAA else 0) := by
  rw [gen_extb_sector_full_form, List.getD_eq_getElem?_getD]
  by_cases h510 : j = 510
  · subst h510
    rw [List.getElem?_set_ne (by omega),
      List.getElem?_set_eq (by simp [List.length_set, List.length_replicate])]
    simp
  by_cases h511 : j = 511
  · subst h511
    rw [List.getElem?_set_eq (by simp [List.length_set, List.length_replicate])]
    simp
  rw [List.getElem?_set_ne (by omega), List.getElem?_set_ne (by omega),
    List.getElem?_replicate, if_pos hj]
  simp [h510, h511]

/-- The generated VBR sectors agree with the positional byte function
vbr_sector_byte, and have length 512. -/
theorem vbr_read10_getD (serial lba j : Nat) (hj : j < 512) :
    (vbr_read10 serial lba).getD j 0 = vbr_sector_byte serial lba j := by
  by_cases h0 : lba < 1
  · simp only [vbr_read10, if_pos h0, vbr_sector_byte]
    exact gen_boot_sector_full_getD serial j hj
  by_cases h9 : lba < 9
  · simp only [vbr_read10, if_neg h0, if_pos h9, vbr_sector_byte]
    exact gen_extb_sector_full_getD j hj
  · simp only [vbr_read10, if_neg h0, if_neg h9, vbr_sector_byte, gen_zero_sector]
    rw [List.getD_eq_getElem?_getD, List.getElem?_replicate, if_pos hj]
    rfl

set_option maxRecDepth 4000 in
/-- The generated VBR sectors are 512 bytes long. -/
theorem vbr_read10_length (serial lba : Nat) :
    (vbr_read10 serial lba).length = 512 := by
  by_cases h0 : lba < 1
  · simp only [vbr_read10, if_pos h0, gen_boot_sector_full_form]
    simp [List.length_set]
    rfl
  by_cases h9 : lba < 9
  · simp only [vbr_read10, if_neg h0, if_pos h9, gen_extb_sector_full_form]
    simp [List.length_set]
  · simp only [vbr_read10, if_neg h0, if_neg h9, gen_zero_sector]
    simp

/-- The per-sector loop of the simple runtime VBR checksum equals the
positional run over the sector's 512 byte positions. -/
theorem vbr_fold_sector_eq_run (serial lba s : Nat) :
    vbr_fold_sector lba (vbr_read10 serial lba) s
      = ror_add_run (vbr_sector_byte serial lba) (vbr_skip lba) 0 512 s := by
  have h := vbr_pair_fold_eq_run serial lba (vbr_read10 serial lba) 0 s
    (fun j hj => by
      rw [vbr_read10_length] at hj
      simpa using vbr_read10_getD serial lba j hj)
  rw [vbr_fold_sector, h, vbr_read10_length]

/-- Claim C1 (code_bug): the arbitrary-slice read contract is violated
by the memory-mapped file generators.  At lba = PICOVD_BOOTROM_START_LBA
with slice (byte_offset = 100, len = 1) and device memory
mem a = a % 256, vd_file_sector_get_bootrom returns byte 0 of the
owning sector (mem 0 = 0) instead of byte 100 (mem 100 = 100) required
by the contract: the source computes the copy address from the LBA
alone and never adds the byte offset.  The first conjunct confirms that
the dispatcher does route this LBA to that generator. -/
theorem c1_bootrom_generator_ignores_offset :
    vd_virtual_disk_read_handler PICOVD_BOOTROM_START_LBA = some .bootrom ∧
    vd_file_sector_get_bootrom (fun a => a % 256) PICOVD_BOOTROM_START_LBA 100 1 = [0] ∧
    vd_bootrom_contract_slice (fun a => a % 256) PICOVD_BOOTROM_START_LBA 100 1 = [100] ∧
    vd_file_sector_get_bootrom (fun a => a % 256) PICOVD_BOOTROM_START_LBA 100 1 ≠
      vd_bootrom_contract_slice (fun a => a % 256) PICOVD_BOOTROM_START_LBA 100 1 := by
  decide

/-! Chunked evaluation of the simple runtime VBR checksum at serial 0
(sector by sector, 256 positions per decide). -/

set_option maxRecDepth 4000 in
theorem c2_runA_0_0 : ror_add_run (vbr_sector_byte 0 0) (vbr_skip 0) 0 256 0 = 295686041 := by
  decide

set_option maxRecDepth 4000 in
theorem c2_runA_0_1 : ror_add_run (vbr_sector_byte 0 0) (vbr_skip 0) 256 256 295686041 = 2443169901 := by
  decide

theorem c2_sectorA_0 : ror_add_run (vbr_sector_byte 0 0) (vbr_skip 0) 0 512 0 = 2443169901 := by
  rw [show (512 : Nat) = 256 + 256 from rfl, ror_add_run_add, c2_runA_0_0]
  exact c2_runA_0_1

set_option maxRecDepth 4000 in
theorem c2_runA_1_0 : ror_add_run (vbr_sector_byte 0 1) (vbr_skip 1) 0 256 2443169901 = 2443169901 := by
  decide

set_option maxRecDepth 4000 in
theorem c2_runA_1_1 : ror_add_run (vbr_sector_byte 0 1) (vbr_skip 1) 256 256 2443169901 = 295686466 := by
  decide

theorem c2_sectorA_1 : ror_add_run (vbr_sector_byte 0 1) (vbr_skip 1) 0 512 2443169901 = 295686466 := by
  rw [show (512 : Nat) = 256 + 256 from rfl, ror_add_run_add, c2_runA_1_0]
  exact c2_runA_1_1

set_option maxRecDepth 4000 in
theorem c2_runA_2_0 : ror_add_run (vbr_sector_byte 0 2) (vbr_skip 2) 0 256 295686466 = 295686466 := by
  decide

set_option maxRecDepth 4000 in
theorem c2_runA_2_1 : ror_add_run (vbr_sector_byte 0 2) (vbr_skip 2) 256 256 295686466 = 2443170326 := by
  decide

theorem c2_sectorA_2 : ror_add_run (vbr_sector_byte 0 2) (vbr_skip 2) 0 512 295686466 = 2443170326 := by
  rw [show (512 : Nat) = 256 + 256 from rfl, ror_add_run_add, c2_runA_2_0]
  exact c2_runA_2_1

set_option maxRecDepth 4000 in
theorem c2_runA_3_0 : ror_add_run (vbr_sector_byte 0 3) (vbr_skip 3) 0 256 2443170326 = 2443170326 := by
  decide

set_option maxRecDepth 4000 in
theorem c2_runA_3_1 : ror_add_run (vbr_sector_byte 0 3) (vbr_skip 3) 256 256 2443170326 = 295686891 := by
  decide

theorem c2_sectorA_3 : ror_add_run (vbr_sector_byte 0 3) (vbr_skip 3) 0 512 2443170326 = 295686891 := by
  rw [show (512 : Nat) = 256 + 256 from rfl, ror_add_run_add, c2_runA_3_0]
  exact c2_runA_3_1

set_option maxRecDepth 4000 in
theorem c2_runA_4_0 : ror_add_run (vbr_sector_byte 0 4) (vbr_skip 4) 0 256 295686891 = 295686891 := by
  decide

set_option maxRecDepth 4000 in
theorem c2_runA_4_1 : ror_add_run (vbr_sector_byte 0 4) (vbr_skip 4) 256 256 295686891 = 2443170751 := by
  decide

theorem c2_sectorA_4 : ror_add_run (vbr_sector_byte 0 4) (vbr_skip 4) 0 512 295686891 = 2443170751 := by
  rw [show (512 : Nat) = 256 + 256 from rfl, ror_add_run_add, c2_runA_4_0]
  exact c2_runA_4_1

set_option maxRecDepth 4000 in
theorem c2_runA_5_0 : ror_add_run (vbr_sector_byte 0 5) (vbr_skip 5) 0 256 2443170751 = 2443170751 := by
  decide

set_option maxRecDepth 4000 in
theorem c2_runA_5_1 : ror_add_run (vbr_sector_byte 0 5) (vbr_skip 5) 256 256 2443170751 = 295687316 := by
  decide

theorem c2_sectorA_5 : ror_add_run (vbr_sector_byte 0 5) (vbr_skip 5) 0 512 2443170751 = 295687316 := by
  rw [show (512 : Nat) = 256 + 256 from rfl, ror_add_run_add, c2_runA_5_0]
  exact c2_runA_5_1

set_option maxRecDepth 4000 in
theorem c2_runA_6_0 : ror_add_run (vbr_sector_byte 0 6) (vbr_skip 6) 0 256 295687316 = 295687316 := by
  decide

set_option maxRecDepth 4000 in
theorem c2_runA_6_1 : ror_add_run (vbr_sector_byte 0 6) (vbr_skip 6) 256 256 295687316 = 2443171176 := by
  decide

theorem c2_sectorA_6 : ror_add_run (vbr_sector_byte 0 6) (vbr_skip 6) 0 512 295687316 = 2443171176 := by
  rw [show (512 : Nat) = 256 + 256 from rfl, ror_add_run_add, c2_runA_6_0]
  exact c2_runA_6_1

set_option maxRecDepth 4000 in
theorem c2_runA_7_0 : ror_add_run (vbr_sector_byte 0 7) (vbr_skip 7) 0 256 2443171176 = 2443171176 := by
  decide

set_option maxRecDepth 4000 in
theorem c2_runA_7_1 : ror_add_run (vbr_sector_byte 0 7) (vbr_skip 7) 256 256 2443171176 = 295687741 := by
  decide

theorem c2_sectorA_7 : ror_add_run (vbr_sector_byte 0 7) (vbr_skip 7) 0 512 2443171176 = 295687741 := by
  rw [show (512 : Nat) = 256 + 256 from rfl, ror_add_run_add, c2_runA_7_0]
  exact c2_runA_7_1

set_option maxRecDepth 4000 in
theorem c2_runA_8_0 : ror_add_run (vbr_sector_byte 0 8) (vbr_skip 8) 0 256 295687741 = 295687741 := by
  decide

set_option maxRecDepth 4000 in
theorem c2_runA_8_1 : ror_add_run (vbr_sector_byte 0 8) (vbr_skip 8) 256 256 295687741 = 2443171601 := by
  decide

theorem c2_sectorA_8 : ror_add_run (vbr_sector_byte 0 8) (vbr_skip 8) 0 512 295687741 = 2443171601 := by
  rw [show (512 : Nat) = 256 + 256 from rfl, ror_add_run_add, c2_runA_8_0]
  exact c2_runA_8_1

set_option maxRecDepth 4000 in
theorem c2_runA_9_0 : ror_add_run (vbr_sector_byte 0 9) (vbr_skip 9) 0 256 2443171601 = 2443171601 := by
  decide

set_option maxRecDepth 4000 in
theorem c2_runA_9_1 : ror_add_run (vbr_sector_byte 0 9) (vbr_skip 9) 256 256 2443171601 = 2443171601 := by
  decide

theorem c2_sectorA_9 : ror_add_run (vbr_sector_byte 0 9) (vbr_skip 9) 0 512 2443171601 = 2443171601 := by
  rw [show (512 : Nat) = 256 + 256 from rfl, ror_add_run_add, c2_runA_9_0]
  exact c2_runA_9_1

set_option maxRecDepth 4000 in
theorem c2_runA_10_0 : ror_add_run (vbr_sector_byte 0 10) (vbr_skip 10) 0 256 2443171601 = 2443171601 := by
  decide

set_option maxRecDepth 4000 in
theorem c2_runA_10_1 : ror_add_run (vbr_sector_byte 0 10) (vbr_skip 10) 256 256 2443171601 = 2443171601 := by
  decide

theorem c2_sectorA_10 : ror_add_run (vbr_sector_byte 0 10) (vbr_skip 10) 0 512 2443171601 = 2443171601 := by
  rw [show (512 : Nat) = 256 + 256 from rfl, ror_add_run_add, c2_runA_10_0]
  exact c2_runA_10_1

/-- Unfolding an eleven-element left fold into nested applications
(stated for an arbitrary fold function so that the kernel never
evaluates the instances). -/
theorem foldl_eleven_unfold (g : Nat → Nat → Nat) :
    ([0, 1, 2, 3, 4, 5, 6, 7, 8, 9, 10] : List Nat).foldl g 0
      = g (g (g (g (g (g (g (g (g (g (g 0 0) 1) 2) 3) 4) 5) 6) 7) 8) 9) 10 := by
  simp only [List.foldl_cons, List.foldl_nil]

/-- List.range 11 as a literal list. -/
theorem range_eleven : List.range 11 = [0, 1, 2, 3, 4, 5, 6, 7, 8, 9, 10] := rfl

/-- The simple runtime VBR checksum unfolded into its eleven per-sector
loops. -/
theorem c2_simple_unfold (serial : Nat) :
    compute_vbr_checksum_runtime_simple serial = vbr_fold_sector 10 (vbr_read10 serial 10) (vbr_fold_sector 9 (vbr_read10 serial 9) (vbr_fold_sector 8 (vbr_read10 serial 8) (vbr_fold_sector 7 (vbr_read10 serial 7) (vbr_fold_sector 6 (vbr_read10 serial 6) (vbr_fold_sector 5 (vbr_read10 serial 5) (vbr_fold_sector 4 (vbr_read10 serial 4) (vbr_fold_sector 3 (vbr_read10 serial 3) (vbr_fold_sector 2 (vbr_read10 serial 2) (vbr_fold_sector 1 (vbr_read10 serial 1) (vbr_fold_sector 0 (vbr_read10 serial 0) (0))))))))))) := by
  simp only [compute_vbr_checksum_runtime_simple, range_eleven]
  exact foldl_eleven_unfold (fun sum lba => vbr_fold_sector lba (vbr_read10 serial lba) sum)

/-- The simple runtime VBR checksum at VolumeSerialNumber 0. -/
theorem c2_simple_value : compute_vbr_checksum_runtime_simple 0 = 2443171601 := by
  rw [c2_simple_unfold]
  simp only [vbr_fold_sector_eq_run]
  rw [c2_sectorA_0, c2_sectorA_1, c2_sectorA_2, c2_sectorA_3, c2_sectorA_4, c2_sectorA_5,
    c2_sectorA_6, c2_sectorA_7, c2_sectorA_8, c2_sectorA_9, c2_sectorA_10]

/-! Chunked evaluation of the compile-time suffix checksum constant. -/

set_option maxRecDepth 4000 in
theorem c2_runB_0_0 : ror_add_run (sector_byte 0) (vbr_skip 0) 104 256 0 = 1248 := by
  decide

set_option maxRecDepth 4000 in
theorem c2_runB_0_1 : ror_add_run (sector_byte 0) (vbr_skip 0) 360 152 1248 = 319488 := by
  decide

theorem c2_sectorB_0 : ror_add_run (sector_byte 0) (vbr_skip 0) 104 408 0 = 319488 := by
  rw [show (408 : Nat) = 256 + 152 from rfl, ror_add_run_add, c2_runB_0_0]
  exact c2_runB_0_1

set_option maxRecDepth 4000 in
theorem c2_runB_1_0 : ror_add_run (sector_byte 1) (vbr_skip 1) 0 256 319488 = 319488 := by
  decide

set_option maxRecDepth 4000 in
theorem c2_runB_1_1 : ror_add_run (sector_byte 1) (vbr_skip 1) 256 256 319488 = 2147803348 := by
  decide

theorem c2_sectorB_1 : ror_add_run (sector_byte 1) (vbr_skip 1) 0 512 319488 = 2147803348 := by
  rw [show (512 : Nat) = 256 + 256 from rfl, ror_add_run_add, c2_runB_1_0]
  exact c2_runB_1_1

set_option maxRecDepth 4000 in
theorem c2_runB_2_0 : ror_add_run (sector_byte 2) (vbr_skip 2) 0 256 2147803348 = 2147803348 := by
  decide

set_option maxRecDepth 4000 in
theorem c2_runB_2_1 : ror_add_run (sector_byte 2) (vbr_skip 2) 256 256 2147803348 = 319913 := by
  decide

theorem c2_sectorB_2 : ror_add_run (sector_byte 2) (vbr_skip 2) 0 512 2147803348 = 319913 := by
  rw [show (512 : Nat) = 256 + 256 from rfl, ror_add_run_add, c2_runB_2_0]
  exact c2_runB_2_1

set_option maxRecDepth 4000 in
theorem c2_runB_3_0 : ror_add_run (sector_byte 3) (vbr_skip 3) 0 256 319913 = 319913 := by
  decide

set_option maxRecDepth 4000 in
theorem c2_runB_3_1 : ror_add_run (sector_byte 3) (vbr_skip 3) 256 256 319913 = 2147803773 := by
  decide

theorem c2_sectorB_3 : ror_add_run (sector_byte 3) (vbr_skip 3) 0 512 319913 = 2147803773 := by
  rw [show (512 : Nat) = 256 + 256 from rfl, ror_add_run_add, c2_runB_3_0]
  exact c2_runB_3_1

set_option maxRecDepth 4000 in
theorem c2_runB_4_0 : ror_add_run (sector_byte 4) (vbr_skip 4) 0 256 2147803773 = 2147803773 := by
  decide

set_option maxRecDepth 4000 in
theorem c2_runB_4_1 : ror_add_run (sector_byte 4) (vbr_skip 4) 256 256 2147803773 = 320338 := by
  decide

theorem c2_sectorB_4 : ror_add_run (sector_byte 4) (vbr_skip 4) 0 512 2147803773 = 320338 := by
  rw [show (512 : Nat) = 256 + 256 from rfl, ror_add_run_add, c2_runB_4_0]
  exact c2_runB_4_1

set_option maxRecDepth 4000 in
theorem c2_runB_5_0 : ror_add_run (sector_byte 5) (vbr_skip 5) 0 256 320338 = 320338 := by
  decide

set_option maxRecDepth 4000 in
theorem c2_runB_5_1 : ror_add_run (sector_byte 5) (vbr_skip 5) 256 256 320338 = 2147804198 := by
  decide

theorem c2_sectorB_5 : ror_add_run (sector_byte 5) (vbr_skip 5) 0 512 320338 = 2147804198 := by
  rw [show (512 : Nat) = 256 + 256 from rfl, ror_add_run_add, c2_runB_5_0]
  exact c2_runB_5_1

set_option maxRecDepth 4000 in
theorem c2_runB_6_0 : ror_add_run (sector_byte 6) (vbr_skip 6) 0 256 2147804198 = 2147804198 := by
  decide

set_option maxRecDepth 4000 in
theorem c2_runB_6_1 : ror_add_run (sector_byte 6) (vbr_skip 6) 256 256 2147804198 = 320763 := by
  decide

theorem c2_sectorB_6 : ror_add_run (sector_byte 6) (vbr_skip 6) 0 512 2147804198 = 320763 := by
  rw [show (512 : Nat) = 256 + 256 from rfl, ror_add_run_add, c2_runB_6_0]
  exact c2_runB_6_1

set_option maxRecDepth 4000 in
theorem c2_runB_7_0 : ror_add_run (sector_byte 7) (vbr_skip 7) 0 256 320763 = 320763 := by
  decide

set_option maxRecDepth 4000 in
theorem c2_runB_7_1 : ror_add_run (sector_byte 7) (vbr_skip 7) 256 256 320763 = 2147804623 := by
  decide

theorem c2_sectorB_7 : ror_add_run (sector_byte 7) (vbr_skip 7) 0 512 320763 = 2147804623 := by
  rw [show (512 : Nat) = 256 + 256 from rfl, ror_add_run_add, c2_runB_7_0]
  exact c2_runB_7_1

set_option maxRecDepth 4000 in
theorem c2_runB_8_0 : ror_add_run (sector_byte 8) (vbr_skip 8) 0 256 2147804623 = 2147804623 := by
  decide

set_option maxRecDepth 4000 in
theorem c2_runB_8_1 : ror_add_run (sector_byte 8) (vbr_skip 8) 256 256 2147804623 = 321188 := by
  decide

theorem c2_sectorB_8 : ror_add_run (sector_byte 8) (vbr_skip 8) 0 512 2147804623 = 321188 := by
  rw [show (512 : Nat) = 256 + 256 from rfl, ror_add_run_add, c2_runB_8_0]
  exact c2_runB_8_1

set_option maxRecDepth 4000 in
theorem c2_runB_9_0 : ror_add_run (sector_byte 9) (vbr_skip 9) 0 256 321188 = 321188 := by
  decide

set_option maxRecDepth 4000 in
theorem c2_runB_9_1 : ror_add_run (sector_byte 9) (vbr_skip 9) 256 256 321188 = 321188 := by
  decide

theorem c2_sectorB_9 : ror_add_run (sector_byte 9) (vbr_skip 9) 0 512 321188 = 321188 := by
  rw [show (512 : Nat) = 256 + 256 from rfl, ror_add_run_add, c2_runB_9_0]
  exact c2_runB_9_1

set_option maxRecDepth 4000 in
theorem c2_runB_10_0 : ror_add_run (sector_byte 10) (vbr_skip 10) 0 256 321188 = 321188 := by
  decide

set_option maxRecDepth 4000 in
theorem c2_runB_10_1 : ror_add_run (sector_byte 10) (vbr_skip 10) 256 256 321188 = 321188 := by
  decide

theorem c2_sectorB_10 : ror_add_run (sector_byte 10) (vbr_skip 10) 0 512 321188 = 321188 := by
  rw [show (512 : Nat) = 256 + 256 from rfl, ror_add_run_add, c2_runB_10_0]
  exact c2_runB_10_1

set_option maxRecDepth 4000 in
/-- The value of the positional run underlying the compile-time
checksum constant named EXFAT_VBR_CHECKSUM_PREFIX in the source. -/
theorem c2_pre_chunk : ror_add_run (sector_byte 0) (vbr_skip 0) 0 100 0 = 841168351 := by
  decide

/-- Unfolding a one-element left fold. -/
theorem foldl_one_unfold (g : Nat → Nat → Nat) :
    ([0] : List Nat).foldl g 0 = g 0 0 := by
  simp only [List.foldl_cons, List.foldl_nil]

/-- compute_vbr_checksum over a single sector, unfolded (stated with
variable offsets so that elaboration never evaluates the ground
instances). -/
theorem cvc_one_unfold (so nf : Nat) :
    compute_vbr_checksum 0 so 1 nf
      = (List.range' (if (0 : Nat) = 0 then so else 0)
          ((if (0 : Nat) = 1 - 1 then nf else 512) - (if (0 : Nat) = 0 then so else 0))).foldl
          (fun s off => if 0 + 0 = 0 ∧ (off = 106 ∨ off = 107 ∨ off = 112) then s
            else (ror32 s + sector_byte (0 + 0) off) % 2 ^ 32) 0 := by
  unfold compute_vbr_checksum
  rw [show List.range 1 = [0] from rfl]
  exact foldl_one_unfold _

/-- The compile-time prefix checksum constant evaluates to its value. -/
theorem c2_pre_value : EXFAT_VBR_CHECKSUM_PRE = 841168351 := by
  rw [show EXFAT_VBR_CHECKSUM_PRE = compute_vbr_checksum 0 0 1 100 from rfl,
    cvc_one_unfold 0 100, cvc_inner_eq_run (0 + 0)]
  norm_num
  exact c2_pre_chunk

/-- compute_vbr_checksum over eleven sectors, unfolded (stated with
variable offsets so that elaboration never evaluates the ground
instances). -/
theorem cvc_eleven_unfold (so nf : Nat) :
    compute_vbr_checksum 0 so 11 nf = (List.range' (if (10 : Nat) = 0 then so else 0)
      ((if (10 : Nat) = 11 - 1 then nf else 512) - (if (10 : Nat) = 0 then so else 0))).foldl
      (fun s off => if 0 + 10 = 0 ∧ (off = 106 ∨ off = 107 ∨ off = 112) then s
        else (ror32 s + sector_byte (0 + 10) off) % 2 ^ 32) ((List.range' (if (9 : Nat) = 0 then so else 0)
      ((if (9 : Nat) = 11 - 1 then nf else 512) - (if (9 : Nat) = 0 then so else 0))).foldl
      (fun s off => if 0 + 9 = 0 ∧ (off = 106 ∨ off = 107 ∨ off = 112) then s
        else (ror32 s + sector_byte (0 + 9) off) % 2 ^ 32) ((List.range' (if (8 : Nat) = 0 then so else 0)
      ((if (8 : Nat) = 11 - 1 then nf else 512) - (if (8 : Nat) = 0 then so else 0))).foldl
      (fun s off => if 0 + 8 = 0 ∧ (off = 106 ∨ off = 107 ∨ off = 112) then s
        else (ror32 s + sector_byte (0 + 8) off) % 2 ^ 32) ((List.range' (if (7 : Nat) = 0 then so else 0)
      ((if (7 : Nat) = 11 - 1 then nf else 512) - (if (7 : Nat) = 0 then so else 0))).foldl
      (fun s off => if 0 + 7 = 0 ∧ (off = 106 ∨ off = 107 ∨ off = 112) then s
        else (ror32 s + sector_byte (0 + 7) off) % 2 ^ 32) ((List.range' (if (6 : Nat) = 0 then so else 0)
      ((if (6 : Nat) = 11 - 1 then nf else 512) - (if (6 : Nat) = 0 then so else 0))).foldl
      (fun s off => if 0 + 6 = 0 ∧ (off = 106 ∨ off = 107 ∨ off = 112) then s
        else (ror32 s + sector_byte (0 + 6) off) % 2 ^ 32) ((List.range' (if (5 : Nat) = 0 then so else 0)
      ((if (5 : Nat) = 11 - 1 then nf else 512) - (if (5 : Nat) = 0 then so else 0))).foldl
      (fun s off => if 0 + 5 = 0 ∧ (off = 106 ∨ off = 107 ∨ off = 112) then s
        else (ror32 s + sector_byte (0 + 5) off) % 2 ^ 32) ((List.range' (if (4 : Nat) = 0 then so else 0)
      ((if (4 : Nat) = 11 - 1 then nf else 512) - (if (4 : Nat) = 0 then so else 0))).foldl
      (fun s off => if 0 + 4 = 0 ∧ (off = 106 ∨ off = 107 ∨ off = 112) then s
        else (ror32 s + sector_byte (0 + 4) off) % 2 ^ 32) ((List.range' (if (3 : Nat) = 0 then so else 0)
      ((if (3 : Nat) = 11 - 1 then nf else 512) - (if (3 : Nat) = 0 then so else 0))).foldl
      (fun s off => if 0 + 3 = 0 ∧ (off = 106 ∨ off = 107 ∨ off = 112) then s
        else (ror32 s + sector_byte (0 + 3) off) % 2 ^ 32) ((List.range' (if (2 : Nat) = 0 then so else 0)
      ((if (2 : Nat) = 11 - 1 then nf else 512) - (if (2 : Nat) = 0 then so else 0))).foldl
      (fun s off => if 0 + 2 = 0 ∧ (off = 106 ∨ off = 107 ∨ off = 112) then s
        else (ror32 s + sector_byte (0 + 2) off) % 2 ^ 32) ((List.range' (if (1 : Nat) = 0 then so else 0)
      ((if (1 : Nat) = 11 - 1 then nf else 512) - (if (1 : Nat) = 0 then so else 0))).foldl
      (fun s off => if 0 + 1 = 0 ∧ (off = 106 ∨ off = 107 ∨ off = 112) then s
        else (ror32 s + sector_byte (0 + 1) off) % 2 ^ 32) ((List.range' (if (0 : Nat) = 0 then so else 0)
      ((if (0 : Nat) = 11 - 1 then nf else 512) - (if (0 : Nat) = 0 then so else 0))).foldl
      (fun s off => if 0 + 0 = 0 ∧ (off = 106 ∨ off = 107 ∨ off = 112) then s
        else (ror32 s + sector_byte (0 + 0) off) % 2 ^ 32) (0))))))))))) := by
  unfold compute_vbr_checksum
  rw [range_eleven]
  exact foldl_eleven_unfold _

/-- The compile-time suffix checksum constant evaluates to its value. -/
theorem c2_suffix_value : EXFAT_VBR_CHECKSUM_SUFFIX = 321188 := by
  rw [show EXFAT_VBR_CHECKSUM_SUFFIX = compute_vbr_checksum 0 104 11 512 from rfl,
    cvc_eleven_unfold 104 512,
    cvc_inner_eq_run (0 + 0), cvc_inner_eq_run (0 + 1), cvc_inner_eq_run (0 + 2),
    cvc_inner_eq_run (0 + 3), cvc_inner_eq_run (0 + 4), cvc_inner_eq_run (0 + 5),
    cvc_inner_eq_run (0 + 6), cvc_inner_eq_run (0 + 7), cvc_inner_eq_run (0 + 8),
    cvc_inner_eq_run (0 + 9), cvc_inner_eq_run (0 + 10)]
  norm_num
  rw [c2_sectorB_0, c2_sectorB_1, c2_sectorB_2, c2_sectorB_3, c2_sectorB_4, c2_sectorB_5,
    c2_sectorB_6, c2_sectorB_7, c2_sectorB_8, c2_sectorB_9, c2_sectorB_10]

/-- The optimised checksum unfolded (stated with a variable serial so
that the kernel compares the two sides structurally instead of
evaluating the ground constants). -/
theorem c2_optimised_unfold (serial : Nat) :
    compute_vbr_checksum_runtime_optimised serial
      = (ror32_by EXFAT_VBR_SUFFIX_ROT
          ((List.range 4).foldl (fun s i => (ror32 s + serial / 2 ^ (8 * i) % 256) % 2 ^ 32)
            EXFAT_VBR_CHECKSUM_PRE) + EXFAT_VBR_CHECKSUM_SUFFIX) % 2 ^ 32 := rfl

/-- The optimised runtime VBR checksum at VolumeSerialNumber 0. -/
theorem c2_optimised_value : compute_vbr_checksum_runtime_optimised 0 = 574112919 := by
  rw [c2_optimised_unfold, c2_pre_value, c2_suffix_value]
  decide

/-- The up-case checksum folds in run form. -/
theorem upcase_stored_run_eq :
    compute_upcase_checksum
      = ror_add_run upcase_stored_byte (fun _ => false) 0 4096 0 := by
  simp only [compute_upcase_checksum]
  rw [show upcase_total_words * 2 = 4096 from rfl, List.range_eq_range']
  exact foldl_range'_ror_add upcase_stored_byte 4096 0 0

/-- The emitted up-case checksum fold in run form. -/
theorem upcase_emitted_run_eq :
    upcase_emitted_checksum
      = ror_add_run upcase_emitted_byte (fun _ => false) 0 4096 0 := by
  simp only [upcase_emitted_checksum]
  rw [show upcase_total_words * 2 = 4096 from rfl, List.range_eq_range']
  exact foldl_range'_ror_add upcase_emitted_byte 4096 0 0

set_option maxRecDepth 4000 in
theorem upc_stored_chunk_0 :
    ror_add_run upcase_stored_byte (fun _ => false) 0 256 0 = 2296614627 := by
  decide

set_option maxRecDepth 4000 in
theorem upc_stored_chunk_1 :
    ror_add_run upcase_stored_byte (fun _ => false) 256 256 2296614627 = 387740359 := by
  decide

set_option maxRecDepth 4000 in
theorem upc_stored_chunk_2 :
    ror_add_run upcase_stored_byte (fun _ => false) 512 256 387740359 = 2773833386 := by
  decide

set_option maxRecDepth 4000 in
theorem upc_stored_chunk_3 :
    ror_add_run upcase_stored_byte (fun _ => false) 768 256 2773833386 = 3728270648 := by
  decide

set_option maxRecDepth 4000 in
theorem upc_stored_chunk_4 :
    ror_add_run upcase_stored_byte (fun _ => false) 1024 256 3728270648 = 387740615 := by
  decide

set_option maxRecDepth 4000 in
theorem upc_stored_chunk_5 :
    ror_add_run upcase_stored_byte (fun _ => false) 1280 256 387740615 = 4205489407 := by
  decide

set_option maxRecDepth 4000 in
theorem upc_stored_chunk_6 :
    ror_add_run upcase_stored_byte (fun _ => false) 1536 256 4205489407 = 3728270904 := by
  decide

set_option maxRecDepth 4000 in
theorem upc_stored_chunk_7 :
    ror_add_run upcase_stored_byte (fun _ => false) 1792 256 3728270904 = 1819396636 := by
  decide

set_option maxRecDepth 4000 in
theorem upc_stored_chunk_8 :
    ror_add_run upcase_stored_byte (fun _ => false) 2048 256 1819396636 = 4205489663 := by
  decide

set_option maxRecDepth 4000 in
theorem upc_stored_chunk_9 :
    ror_add_run upcase_stored_byte (fun _ => false) 2304 256 4205489663 = 864959630 := by
  decide

set_option maxRecDepth 4000 in
theorem upc_stored_chunk_10 :
    ror_add_run upcase_stored_byte (fun _ => false) 2560 256 864959630 = 1819396892 := by
  decide

set_option maxRecDepth 4000 in
theorem upc_stored_chunk_11 :
    ror_add_run upcase_stored_byte (fun _ => false) 2816 256 1819396892 = 1342178389 := by
  decide

set_option maxRecDepth 4000 in
theorem upc_stored_chunk_12 :
    ror_add_run upcase_stored_byte (fun _ => false) 3072 256 1342178389 = 864959886 := by
  decide

set_option maxRecDepth 4000 in
theorem upc_stored_chunk_13 :
    ror_add_run upcase_stored_byte (fun _ => false) 3328 256 864959886 = 3251052913 := by
  decide

set_option maxRecDepth 4000 in
theorem upc_stored_chunk_14 :
    ror_add_run upcase_stored_byte (fun _ => false) 3584 256 3251052913 = 1342178645 := by
  decide

set_option maxRecDepth 4000 in
theorem upc_stored_chunk_15 :
    ror_add_run upcase_stored_byte (fun _ => false) 3840 256 1342178645 = 2296615907 := by
  decide

set_option maxRecDepth 4000 in
theorem upc_emitted_chunk_0 :
    ror_add_run upcase_emitted_byte (fun _ => false) 0 256 0 = 2296614627 := by
  decide

set_option maxRecDepth 4000 in
theorem upc_emitted_chunk_1 :
    ror_add_run upcase_emitted_byte (fun _ => false) 256 256 2296614627 = 2296614627 := by
  decide

set_option maxRecDepth 4000 in
theorem upc_emitted_chunk_2 :
    ror_add_run upcase_emitted_byte (fun _ => false) 512 256 2296614627 = 2296614627 := by
  decide

set_option maxRecDepth 4000 in
theorem upc_emitted_chunk_3 :
    ror_add_run upcase_emitted_byte (fun _ => false) 768 256 2296614627 = 2296614627 := by
  decide

set_option maxRecDepth 4000 in
theorem upc_emitted_chunk_4 :
    ror_add_run upcase_emitted_byte (fun _ => false) 1024 256 2296614627 = 2296614627 := by
  decide

set_option maxRecDepth 4000 in
theorem upc_emitted_chunk_5 :
    ror_add_run upcase_emitted_byte (fun _ => false) 1280 256 2296614627 = 2296614627 := by
  decide

set_option maxRecDepth 4000 in
theorem upc_emitted_chunk_6 :
    ror_add_run upcase_emitted_byte (fun _ => false) 1536 256 2296614627 = 2296614627 := by
  decide

set_option maxRecDepth 4000 in
theorem upc_emitted_chunk_7 :
    ror_add_run upcase_emitted_byte (fun _ => false) 1792 256 2296614627 = 2296614627 := by
  decide

set_option maxRecDepth 4000 in
theorem upc_emitted_chunk_8 :
    ror_add_run upcase_emitted_byte (fun _ => false) 2048 256 2296614627 = 2296614627 := by
  decide

set_option maxRecDepth 4000 in
theorem upc_emitted_chunk_9 :
    ror_add_run upcase_emitted_byte (fun _ => false) 2304 256 2296614627 = 2296614627 := by
  decide

set_option maxRecDepth 4000 in
theorem upc_emitted_chunk_10 :
    ror_add_run upcase_emitted_byte (fun _ => false) 2560 256 2296614627 = 2296614627 := by
  decide

set_option maxRecDepth 4000 in
theorem upc_emitted_chunk_11 :
    ror_add_run upcase_emitted_byte (fun _ => false) 2816 256 2296614627 = 2296614627 := by
  decide

set_option maxRecDepth 4000 in
theorem upc_emitted_chunk_12 :
    ror_add_run upcase_emitted_byte (fun _ => false) 3072 256 2296614627 = 2296614627 := by
  decide

set_option maxRecDepth 4000 in
theorem upc_emitted_chunk_13 :
    ror_add_run upcase_emitted_byte (fun _ => false) 3328 256 2296614627 = 2296614627 := by
  decide

set_option maxRecDepth 4000 in
theorem upc_emitted_chunk_14 :
    ror_add_run upcase_emitted_byte (fun _ => false) 3584 256 2296614627 = 2296614627 := by
  decide

set_option maxRecDepth 4000 in
theorem upc_emitted_chunk_15 :
    ror_add_run upcase_emitted_byte (fun _ => false) 3840 256 2296614627 = 2296614627 := by
  decide

/-- The value of compute_upcase_checksum. -/
theorem compute_upcase_checksum_value : compute_upcase_checksum = 2296615907 := by
  rw [upcase_stored_run_eq]
  have h1 : ror_add_run upcase_stored_byte (fun _ => false) 0 256 0 = 2296614627 := upc_stored_chunk_0
  have h2 : ror_add_run upcase_stored_byte (fun _ => false) 0 512 0 = 387740359 := by
    rw [show (512 : Nat) = 256 + 256 from rfl, ror_add_run_add, h1]
    exact upc_stored_chunk_1
  have h3 : ror_add_run upcase_stored_byte (fun _ => false) 0 768 0 = 2773833386 := by
    rw [show (768 : Nat) = 512 + 256 from rfl, ror_add_run_add, h2]
    exact upc_stored_chunk_2
  have h4 : ror_add_run upcase_stored_byte (fun _ => false) 0 1024 0 = 3728270648 := by
    rw [show (1024 : Nat) = 768 + 256 from rfl, ror_add_run_add, h3]
    exact upc_stored_chunk_3
  have h5 : ror_add_run upcase_stored_byte (fun _ => false) 0 1280 0 = 387740615 := by
    rw [show (1280 : Nat) = 1024 + 256 from rfl, ror_add_run_add, h4]
    exact upc_stored_chunk_4
  have h6 : ror_add_run upcase_stored_byte (fun _ => false) 0 1536 0 = 4205489407 := by
    rw [show (1536 : Nat) = 1280 + 256 from rfl, ror_add_run_add, h5]
    exact upc_stored_chunk_5
  have h7 : ror_add_run upcase_stored_byte (fun _ => false) 0 1792 0 = 3728270904 := by
    rw [show (1792 : Nat) = 1536 + 256 from rfl, ror_add_run_add, h6]
    exact upc_stored_chunk_6
  have h8 : ror_add_run upcase_stored_byte (fun _ => false) 0 2048 0 = 1819396636 := by
    rw [show (2048 : Nat) = 1792 + 256 from rfl, ror_add_run_add, h7]
    exact upc_stored_chunk_7
  have h9 : ror_add_run upcase_stored_byte (fun _ => false) 0 2304 0 = 4205489663 := by
    rw [show (2304 : Nat) = 2048 + 256 from rfl, ror_add_run_add, h8]
    exact upc_stored_chunk_8
  have h10 : ror_add_run upcase_stored_byte (fun _ => false) 0 2560 0 = 864959630 := by
    rw [show (2560 : Nat) = 2304 + 256 from rfl, ror_add_run_add, h9]
    exact upc_stored_chunk_9
  have h11 : ror_add_run upcase_stored_byte (fun _ => false) 0 2816 0 = 1819396892 := by
    rw [show (2816 : Nat) = 2560 + 256 from rfl, ror_add_run_add, h10]
    exact upc_stored_chunk_10
  have h12 : ror_add_run upcase_stored_byte (fun _ => false) 0 3072 0 = 1342178389 := by
    rw [show (3072 : Nat) = 2816 + 256 from rfl, ror_add_run_add, h11]
    exact upc_stored_chunk_11
  have h13 : ror_add_run upcase_stored_byte (fun _ => false) 0 3328 0 = 864959886 := by
    rw [show (3328 : Nat) = 3072 + 256 from rfl, ror_add_run_add, h12]
    exact upc_stored_chunk_12
  have h14 : ror_add_run upcase_stored_byte (fun _ => false) 0 3584 0 = 3251052913 := by
    rw [show (3584 : Nat) = 3328 + 256 from rfl, ror_add_run_add, h13]
    exact upc_stored_chunk_13
  have h15 : ror_add_run upcase_stored_byte (fun _ => false) 0 3840 0 = 1342178645 := by
    rw [show (3840 : Nat) = 3584 + 256 from rfl, ror_add_run_add, h14]
    exact upc_stored_chunk_14
  have h16 : ror_add_run upcase_stored_byte (fun _ => false) 0 4096 0 = 2296615907 := by
    rw [show (4096 : Nat) = 3840 + 256 from rfl, ror_add_run_add, h15]
    exact upc_stored_chunk_15
  exact h16

/-- The value of upcase_emitted_checksum. -/
theorem upcase_emitted_checksum_value : upcase_emitted_checksum = 2296614627 := by
  rw [upcase_emitted_run_eq]
  have h1 : ror_add_run upcase_emitted_byte (fun _ => false) 0 256 0 = 2296614627 := upc_emitted_chunk_0
  have h2 : ror_add_run upcase_emitted_byte (fun _ => false) 0 512 0 = 2296614627 := by
    rw [show (512 : Nat) = 256 + 256 from rfl, ror_add_run_add, h1]
    exact upc_emitted_chunk_1
  have h3 : ror_add_run upcase_emitted_byte (fun _ => false) 0 768 0 = 2296614627 := by
    rw [show (768 : Nat) = 512 + 256 from rfl, ror_add_run_add, h2]
    exact upc_emitted_chunk_2
  have h4 : ror_add_run upcase_emitted_byte (fun _ => false) 0 1024 0 = 2296614627 := by
    rw [show (1024 : Nat) = 768 + 256 from rfl, ror_add_run_add, h3]
    exact upc_emitted_chunk_3
  have h5 : ror_add_run upcase_emitted_byte (fun _ => false) 0 1280 0 = 2296614627 := by
    rw [show (1280 : Nat) = 1024 + 256 from rfl, ror_add_run_add, h4]
    exact upc_emitted_chunk_4
  have h6 : ror_add_run upcase_emitted_byte (fun _ => false) 0 1536 0 = 2296614627 := by
    rw [show (1536 : Nat) = 1280 + 256 from rfl, ror_add_run_add, h5]
    exact upc_emitted_chunk_5
  have h7 : ror_add_run upcase_emitted_byte (fun _ => false) 0 1792 0 = 2296614627 := by
    rw [show (1792 : Nat) = 1536 + 256 from rfl, ror_add_run_add, h6]
    exact upc_emitted_chunk_6
  have h8 : ror_add_run upcase_emitted_byte (fun _ => false) 0 2048 0 = 2296614627 := by
    rw [show (2048 : Nat) = 1792 + 256 from rfl, ror_add_run_add, h7]
    exact upc_emitted_chunk_7
  have h9 : ror_add_run upcase_emitted_byte (fun _ => false) 0 2304 0 = 2296614627 := by
    rw [show (2304 : Nat) = 2048 + 256 from rfl, ror_add_run_add, h8]
    exact upc_emitted_chunk_8
  have h10 : ror_add_run upcase_emitted_byte (fun _ => false) 0 2560 0 = 2296614627 := by
    rw [show (2560 : Nat) = 2304 + 256 from rfl, ror_add_run_add, h9]
    exact upc_emitted_chunk_9
  have h11 : ror_add_run upcase_emitted_byte (fun _ => false) 0 2816 0 = 2296614627 := by
    rw [show (2816 : Nat) = 2560 + 256 from rfl, ror_add_run_add, h10]
    exact upc_emitted_chunk_10
  have h12 : ror_add_run upcase_emitted_byte (fun _ => false) 0 3072 0 = 2296614627 := by
    rw [show (3072 : Nat) = 2816 + 256 from rfl, ror_add_run_add, h11]
    exact upc_emitted_chunk_11
  have h13 : ror_add_run upcase_emitted_byte (fun _ => false) 0 3328 0 = 2296614627 := by
    rw [show (3328 : Nat) = 3072 + 256 from rfl, ror_add_run_add, h12]
    exact upc_emitted_chunk_12
  have h14 : ror_add_run upcase_emitted_byte (fun _ => false) 0 3584 0 = 2296614627 := by
    rw [show (3584 : Nat) = 3328 + 256 from rfl, ror_add_run_add, h13]
    exact upc_emitted_chunk_13
  have h15 : ror_add_run upcase_emitted_byte (fun _ => false) 0 3840 0 = 2296614627 := by
    rw [show (3840 : Nat) = 3584 + 256 from rfl, ror_add_run_add, h14]
    exact upc_emitted_chunk_14
  have h16 : ror_add_run upcase_emitted_byte (fun _ => false) 0 4096 0 = 2296614627 := by
    rw [show (4096 : Nat) = 3840 + 256 from rfl, ror_add_run_add, h15]
    exact upc_emitted_chunk_15
  exact h16

/-- Claim C2 counterexample: the simple and the prefix/suffix-optimised
runtime VBR checksum functions are not equal as functions of the
VolumeSerialNumber; they already differ at serial number 0 (the
optimised path is the one flagged non-working in the source). -/
theorem c2_simple_ne_optimised :
    compute_vbr_checksum_runtime_simple 0 ≠ compute_vbr_checksum_runtime_optimised 0 := by
  rw [c2_simple_value, c2_optimised_value]
  decide

/-- Claim C4 (code_bug): the up-case sector generator does not emit the
30-word compressed table: the first emitted word is 0x0000 (the first
entry of the exported uncompressed 128-word table) where the compressed
form starts with the run marker 0xFFFF; and the TableChecksum stored in
the up-case directory entry (computed by continuing the table with
identity words) differs from the ROR32-and-add checksum over the bytes
the generator actually emits (table then zero words). -/
theorem c4_upcase_table_diverges :
    gen_upcs_word 0 = 0 ∧
    exfat_upcase_table_compressed.getD 0 0 = 0xFFFF ∧
    gen_upcs_sector EXFAT_UPCASE_TABLE_START_LBA 0 4 = [0, 0, 1, 0] ∧
    exfat_upcase_table_checksum ≠ upcase_emitted_checksum := by
  refine ⟨by decide, by decide, by decide, ?_⟩
  rw [show exfat_upcase_table_checksum = compute_upcase_checksum from rfl,
    compute_upcase_checksum_value, upcase_emitted_checksum_value]
  decide

/-- Claim C5 counterexample: with the next-cluster cursor at
PICOVD_DYNAMIC_AREA_END_CLUSTER - 1, an empty registry and a one-cluster
file, the claim's failure condition next_cluster + n >
dynamic_area_end_cluster is false (the sum equals the bound) and the
registry is not full, yet vd_add_file fails with -1 (the source tests
next_cluster + n >= end): the claim's "exactly when" is refuted. -/
theorem c5_alloc_boundary_failure :
    let st : dynamic_cluster_state := { next_cluster := 0xE000 - 1, map := [] }
    let file : vd_dynamic_file_t :=
      { first_cluster := 0, size_bytes := 4096, creat_time_sec := 0, mod_time_sec := 0 }
    ¬(st.next_cluster + (file.size_bytes + cluster_size_bytes - 1) / cluster_size_bytes >
        PICOVD_DYNAMIC_AREA_END_CLUSTER) ∧
    st.map.length < PICOVD_PARAM_MAX_DYNAMIC_FILES ∧
    (vd_add_file st file).2.2 = -1 ∧
    (vd_add_file st file).1 = st := by
  decide

/-- Claim C9 counterexample: after a single oversized write (3 bytes
into a capacity-2 ring) the live window is [1, 3) of the written stream
[9, 1, 2], so a read of [1, 3) must copy bytes [1, 2]; the code copies
2 bytes but returns them rotated as [2, 1], because an oversized write
advances tot by the full length while the write pointer only advances
by the stored length. -/
theorem c9_oversized_write_window_shifted :
    let rb := (ring_buffer_write (ring_buffer_initial 2) [9, 1, 2]).1
    (ring_buffer_get rb 1 [7, 7] 2).2 = 2 ∧
    (ring_buffer_get rb 1 [7, 7] 2).1 = [2, 1] ∧
    (ring_stream [[9, 1, 2]]).drop 1 = [1, 2] ∧
    (ring_buffer_get rb 1 [7, 7] 2).1 ≠ (ring_stream [[9, 1, 2]]).drop 1 := by
  decide

/-- Claim C10 (code_bug): the ring buffer's consistency assertion
tot % capacity == ptr - beg is violated at the end of
ring_buffer_write for a single write larger than the capacity whose
length is not a multiple of the capacity: from the valid initial state
of a capacity-4 ring, writing 5 bytes stores the last 4 of them and
advances tot by the full 5, after which 5 % 4 = 1 differs from the
write index 0. -/
theorem c10_ring_buffer_assert_violated :
    ring_buffer_assert (ring_buffer_initial 4) = true ∧
    (ring_buffer_write (ring_buffer_initial 4) [1, 2, 3, 4, 5]).1.tot = 5 ∧
    (ring_buffer_write (ring_buffer_initial 4) [1, 2, 3, 4, 5]).1.data = [2, 3, 4, 5] ∧
    (ring_buffer_write (ring_buffer_initial 4) [1, 2, 3, 4, 5]).2 = 4 ∧
    ring_buffer_assert (ring_buffer_write (ring_buffer_initial 4) [1, 2, 3, 4, 5]).1
      = false := by
  decide

/-! Value range and lane reassembly of the checksum-sector generator. -/

/-- A foldl whose step keeps values below 2^32 keeps its result below
2^32. -/
theorem foldl_lt_invariant {α : Type} (f : Nat → α → Nat) (l : List α)
    (h : ∀ s a, s < 2 ^ 32 → f s a < 2 ^ 32) :
    ∀ s, s < 2 ^ 32 → l.foldl f s < 2 ^ 32 := by
  induction l with
  | nil => intro s hs; simpa using hs
  | cons a t ih => intro s hs; rw [List.foldl_cons]; exact ih _ (h s a hs)

/-- The running sum of the VBR checksum inner loop stays below 2^32. -/
theorem vbr_fold_sector_lt (lba : Nat) (sector : List Nat) (s : Nat)
    (hs : s < 2 ^ 32) : vbr_fold_sector lba sector s < 2 ^ 32 := by
  rw [vbr_fold_sector]
  have h : ∀ p : Nat × Nat, p.2 < 2 ^ 32 →
      (sector.foldl (fun p b =>
        (p.1 + 1,
         if lba = 0 ∧ (p.1 = 106 ∨ p.1 = 107 ∨ p.1 = 112) then p.2
         else (ror32 p.2 + b) % 2 ^ 32)) p).2 < 2 ^ 32 := by
    induction sector with
    | nil => intro p hp; simpa using hp
    | cons b t ih =>
      intro p hp
      rw [List.foldl_cons]
      refine ih _ ?_
      dsimp only
      split
      · exact hp
      · exact Nat.mod_lt _ (by norm_num)
  exact h (0, s) hs

/-- The cached runtime VBR checksum is a 32-bit value. -/
theorem compute_vbr_checksum_runtime_lt (serial : Nat) :
    compute_vbr_checksum_runtime serial < 2 ^ 32 := by
  rw [compute_vbr_checksum_runtime, compute_vbr_checksum_runtime_simple]
  exact foldl_lt_invariant _ _
    (fun s lba hs => vbr_fold_sector_lt lba (vbr_read10 serial lba) s hs) 0 (by norm_num)

/-- Byte i of a lane-selection map over an arbitrary 32-bit value c. -/
theorem map_lane_getD (c offset bufsize i : Nat) (hi : i < bufsize) :
    ((List.range bufsize).map (fun j => c / 2 ^ (8 * ((offset + j) % 4)) % 256)).getD i 0
      = c / 2 ^ (8 * ((offset + i) % 4)) % 256 := by
  simp [List.getD_eq_getElem?_getD, List.getElem?_map, List.getElem?_range hi]

/-- Byte i of the slice gen_cksm_sector returns is the byte of the
cached checksum selected by the absolute position modulo 4. -/
theorem gen_cksm_sector_getD (serial offset bufsize i : Nat) (hi : i < bufsize) :
    (gen_cksm_sector serial offset bufsize).getD i 0
      = compute_vbr_checksum_runtime serial / 2 ^ (8 * ((offset + i) % 4)) % 256 := by
  unfold gen_cksm_sector
  exact map_lane_getD (compute_vbr_checksum_runtime serial) offset bufsize i hi

/-- Claim C2 (corrected): for every VolumeSerialNumber, every 4-byte
little-endian lane of the generated checksum sector reassembles to the
cached runtime VBR checksum, which the source computes with the simple
ROR32-and-add loop over the generated sectors 0..10 (bytes 106, 107 and
112 of sector 0 skipped); and the dispatcher routes LBA 11 and the
backup LBA 23 to that generator.  (The claim's further equality with the
prefix/suffix-optimised computation is refuted by
c2_simple_ne_optimised.) -/
theorem c2_cksm_sector_amended (serial k : Nat) :
    (gen_cksm_sector serial (4 * k) 4).getD 0 0
        + 256 * (gen_cksm_sector serial (4 * k) 4).getD 1 0
        + 65536 * (gen_cksm_sector serial (4 * k) 4).getD 2 0
        + 16777216 * (gen_cksm_sector serial (4 * k) 4).getD 3 0
      = compute_vbr_checksum_runtime serial ∧
    vd_virtual_disk_read_handler 11 = some lba_handler.cksm ∧
    vd_virtual_disk_read_handler 23 = some lba_handler.cksm := by
  refine ⟨?_, by decide, by decide⟩
  have hlt := compute_vbr_checksum_runtime_lt serial
  rw [gen_cksm_sector_getD serial (4 * k) 4 0 (by norm_num),
      gen_cksm_sector_getD serial (4 * k) 4 1 (by norm_num),
      gen_cksm_sector_getD serial (4 * k) 4 2 (by norm_num),
      gen_cksm_sector_getD serial (4 * k) 4 3 (by norm_num)]
  have h0 : (4 * k + 0) % 4 = 0 := by omega
  have h1 : (4 * k + 1) % 4 = 1 := by omega
  have h2 : (4 * k + 2) % 4 = 2 := by omega
  have h3 : (4 * k + 3) % 4 = 3 := by omega
  rw [h0, h1, h2, h3]
  norm_num
  omega

/-! Amended allocator behaviour (claim C5). -/

/-- Claim C5 (corrected): on a file with no cluster yet and a valid
cursor, vd_add_file fails (with the registry and cursor unchanged)
exactly when next_cluster + n reaches or exceeds the dynamic-area end
cluster (the source tests with >=, not >) or the registry is full, and
otherwise assigns the cursor as the file's first cluster, advances the
cursor by n = ceil(size / cluster_size) and appends the file. -/
theorem c5_add_file_amended (st : dynamic_cluster_state) (file : vd_dynamic_file_t)
    (h0 : file.first_cluster = 0) (hnc : 0 < st.next_cluster) :
    (PICOVD_DYNAMIC_AREA_END_CLUSTER ≤
          st.next_cluster + (file.size_bytes + cluster_size_bytes - 1) / cluster_size_bytes ∨
        PICOVD_PARAM_MAX_DYNAMIC_FILES ≤ st.map.length →
      vd_add_file st file = (st, file, -1)) ∧
    (st.next_cluster + (file.size_bytes + cluster_size_bytes - 1) / cluster_size_bytes <
        PICOVD_DYNAMIC_AREA_END_CLUSTER →
      st.map.length < PICOVD_PARAM_MAX_DYNAMIC_FILES →
      vd_add_file st file =
        ({ next_cluster := st.next_cluster +
             (file.size_bytes + cluster_size_bytes - 1) / cluster_size_bytes,
           map := st.map ++ [{ first_cluster := st.next_cluster,
                               file_size_bytes := file.size_bytes }] },
         { file with first_cluster := st.next_cluster }, 0)) := by
  obtain ⟨fc, sz, ct, mt⟩ := file
  simp only at h0
  subst h0
  simp only [cluster_size_bytes, EXFAT_BYTES_PER_SECTOR, EXFAT_SECTORS_PER_CLUSTER,
    PICOVD_DYNAMIC_AREA_END_CLUSTER, PICOVD_PARAM_MAX_DYNAMIC_FILES] at *
  constructor
  · intro hfail
    simp only [vd_add_file, vd_dynamic_cluster_alloc, cluster_size_bytes,
      EXFAT_BYTES_PER_SECTOR, EXFAT_SECTORS_PER_CLUSTER,
      PICOVD_DYNAMIC_AREA_END_CLUSTER, PICOVD_PARAM_MAX_DYNAMIC_FILES]
    norm_num
    split_ifs with h1 h2 h3 <;> first | rfl | omega
  · intro hs hm
    simp only [vd_add_file, vd_dynamic_cluster_alloc, cluster_size_bytes,
      EXFAT_BYTES_PER_SECTOR, EXFAT_SECTORS_PER_CLUSTER,
      PICOVD_DYNAMIC_AREA_END_CLUSTER, PICOVD_PARAM_MAX_DYNAMIC_FILES]
    norm_num
    split_ifs with h1 h2 h3 <;> first | rfl | omega

/-- Witness for c5_add_file_amended: adding a one-cluster 4096-byte file
to the pristine allocator succeeds with first cluster 14. -/
theorem c5_add_file_amended_witness :
    vd_add_file { next_cluster := 14, map := [] }
        { first_cluster := 0, size_bytes := 4096, creat_time_sec := 0, mod_time_sec := 0 }
      = ({ next_cluster := 15,
           map := [{ first_cluster := 14, file_size_bytes := 4096 }] },
         { first_cluster := 14, size_bytes := 4096, creat_time_sec := 0, mod_time_sec := 0 },
         0) := by
  exact ((c5_add_file_amended { next_cluster := 14, map := [] }
      { first_cluster := 0, size_bytes := 4096, creat_time_sec := 0, mod_time_sec := 0 }
      rfl (by decide)).2 (by decide) (by decide)).trans (by decide)

/-! Update-path behaviour (claim C6). -/

/-- Claim C6 (corrected; the directory half modelled from the spec,
see vd_exfat_dir_update_file): the amended three-case behaviour of
vd_update_file.  The source compares the new size against the clusters
the CURRENT size_bytes occupies — it records no registration-time
reservation in the file and never consults the registry — so the
claim's first case must read "needs no more clusters than the current
size occupies", not "fits within the reserved cluster run".  Under
that correction: if the new size needs no more clusters than the
current size occupies, the size is set, the modification time
refreshed and the soft media-change notification raised (the
contents-changed flag is set), with the allocator untouched; if it
needs more clusters but the file owns the tail of the dynamic area
(its run ends at the cursor) and the extension fits before the
dynamic-area end, the reservation is extended in place; otherwise the
call fails with -1 and leaves the allocator state, the flag and the
file unchanged. -/
theorem c6_update_file_cases (st : dynamic_cluster_state) (flag : Bool) (now : Nat)
    (file : vd_dynamic_file_t) (size : Nat) :
    ((size + cluster_size_bytes - 1) / cluster_size_bytes ≤
        (file.size_bytes + cluster_size_bytes - 1) / cluster_size_bytes →
      vd_update_file st flag now file size
        = (st, true, { file with size_bytes := size, mod_time_sec := now }, 0)) ∧
    ((file.size_bytes + cluster_size_bytes - 1) / cluster_size_bytes <
        (size + cluster_size_bytes - 1) / cluster_size_bytes →
      file.first_cluster + (file.size_bytes + cluster_size_bytes - 1) / cluster_size_bytes
          = st.next_cluster →
      st.next_cluster + ((size + cluster_size_bytes - 1) / cluster_size_bytes -
            (file.size_bytes + cluster_size_bytes - 1) / cluster_size_bytes)
          ≤ PICOVD_DYNAMIC_AREA_END_CLUSTER →
      vd_update_file st flag now file size
        = ({ st with next_cluster := st.next_cluster +
               ((size + cluster_size_bytes - 1) / cluster_size_bytes -
                (file.size_bytes + cluster_size_bytes - 1) / cluster_size_bytes) },
           true, { file with size_bytes := size, mod_time_sec := now }, 0)) ∧
    ((file.size_bytes + cluster_size_bytes - 1) / cluster_size_bytes <
        (size + cluster_size_bytes - 1) / cluster_size_bytes →
      ¬(file.first_cluster + (file.size_bytes + cluster_size_bytes - 1) / cluster_size_bytes
            = st.next_cluster ∧
        st.next_cluster + ((size + cluster_size_bytes - 1) / cluster_size_bytes -
              (file.size_bytes + cluster_size_bytes - 1) / cluster_size_bytes)
            ≤ PICOVD_DYNAMIC_AREA_END_CLUSTER) →
      vd_update_file st flag now file size = (st, flag, file, -1)) := by
  have hmono : size ≤ file.size_bytes →
      (size + cluster_size_bytes - 1) / cluster_size_bytes ≤
        (file.size_bytes + cluster_size_bytes - 1) / cluster_size_bytes := by
    intro h
    exact Nat.div_le_div_right (by omega)
  refine ⟨fun hle => ?_, fun hgt htail hroom => ?_, fun hgt hnot => ?_⟩
  · simp only [vd_update_file, vd_exfat_dir_update_file]
    split_ifs with h1 h2 <;> first | rfl | omega
  · have hsz : file.size_bytes < size := by
      by_contra h
      push_neg at h
      exact absurd (hmono h) (by omega)
    simp only [vd_update_file, vd_exfat_dir_update_file]
    split_ifs with h1 h2 h3 <;> first | rfl | omega | exact absurd ⟨htail, hroom⟩ h3
  · have hsz : file.size_bytes < size := by
      by_contra h
      push_neg at h
      exact absurd (hmono h) (by omega)
    simp only [vd_update_file, vd_exfat_dir_update_file]
    split_ifs with h1 h2 h3 <;> first | rfl | omega | exact absurd h3 hnot

/-- Witness for c6_update_file_cases: growing a one-cluster file that
owns the tail of the dynamic area to two clusters extends the
reservation in place, sets the size, refreshes the timestamp and raises
the notification. -/
theorem c6_update_file_cases_witness :
    vd_update_file { next_cluster := 15, map := [] } false 77
        { first_cluster := 14, size_bytes := 4096, creat_time_sec := 3, mod_time_sec := 5 } 8192
      = ({ next_cluster := 16, map := [] }, true,
         { first_cluster := 14, size_bytes := 8192, creat_time_sec := 3, mod_time_sec := 77 },
         0) := by
  exact ((c6_update_file_cases { next_cluster := 15, map := [] } false 77
      { first_cluster := 14, size_bytes := 4096, creat_time_sec := 3, mod_time_sec := 5 }
      8192).2.1 (by decide) (by decide) (by decide)).trans (by decide)

/-- Claim C6 counterexample: an update that fits within the file's
registration-time reserved cluster run can still fail.  Registering an
8192-byte file reserves two clusters (14 and 15, cursor moving to 16);
a second file then takes cluster 16, so the first file no longer owns
the tail.  Shrinking the first file to 100 bytes succeeds; regrowing
it to 5000 bytes — well within its reserved two-cluster (8192-byte)
run — fails with -1 and leaves everything unchanged, because the
source compares against the clusters of the current 100-byte size
(one) and the tail-extension test fails: vd_update_file never consults
the registration-time reservation. -/
theorem c6_reserved_run_update_fails :
    vd_add_file { next_cluster := 14, map := [] }
        { first_cluster := 0, size_bytes := 8192, creat_time_sec := 0, mod_time_sec := 0 }
      = ({ next_cluster := 16,
           map := [{ first_cluster := 14, file_size_bytes := 8192 }] },
         { first_cluster := 14, size_bytes := 8192, creat_time_sec := 0, mod_time_sec := 0 },
         0) ∧
    vd_add_file
        { next_cluster := 16,
          map := [{ first_cluster := 14, file_size_bytes := 8192 }] }
        { first_cluster := 0, size_bytes := 4096, creat_time_sec := 0, mod_time_sec := 0 }
      = ({ next_cluster := 17,
           map := [{ first_cluster := 14, file_size_bytes := 8192 },
                   { first_cluster := 16, file_size_bytes := 4096 }] },
         { first_cluster := 16, size_bytes := 4096, creat_time_sec := 0, mod_time_sec := 0 },
         0) ∧
    vd_update_file
        { next_cluster := 17,
          map := [{ first_cluster := 14, file_size_bytes := 8192 },
                  { first_cluster := 16, file_size_bytes := 4096 }] }
        false 50
        { first_cluster := 14, size_bytes := 8192, creat_time_sec := 0, mod_time_sec := 0 } 100
      = ({ next_cluster := 17,
           map := [{ first_cluster := 14, file_size_bytes := 8192 },
                   { first_cluster := 16, file_size_bytes := 4096 }] },
         true,
         { first_cluster := 14, size_bytes := 100, creat_time_sec := 0, mod_time_sec := 50 },
         0) ∧
    5000 ≤ 2 * cluster_size_bytes ∧
    vd_update_file
        { next_cluster := 17,
          map := [{ first_cluster := 14, file_size_bytes := 8192 },
                  { first_cluster := 16, file_size_bytes := 4096 }] }
        true 60
        { first_cluster := 14, size_bytes := 100, creat_time_sec := 0, mod_time_sec := 50 } 5000
      = ({ next_cluster := 17,
           map := [{ first_cluster := 14, file_size_bytes := 8192 },
                   { first_cluster := 16, file_size_bytes := 4096 }] },
         true,
         { first_cluster := 14, size_bytes := 100, creat_time_sec := 0, mod_time_sec := 50 },
         -1) := by
  refine ⟨by decide, by decide, by decide, by decide, by decide⟩

/-! Write rejection (claim C7). -/

/-- Claim C7 (confirmed): every SCSI write-class command — WRITE10 (its
dedicated callback) and MODE SELECT (6/10), UNMAP, FORMAT UNIT,
WRITE12, WRITE16 (the generic callback) — fails with DATA PROTECT /
WRITE PROTECTED sense 07/27/00 and leaves the volume state (and the
contents-changed flag) unchanged, so subsequent reads, which are a
function of the volume state alone, return the same synthesised
bytes. -/
theorem c7_write_rejection {σ : Type} (st : msc_cb_state σ) (cmd : Nat)
    (hcmd : cmd = SCSI_CMD_MODE_SELECT_6 ∨ cmd = SCSI_CMD_MODE_SELECT_10 ∨
      cmd = SCSI_CMD_UNMAP ∨ cmd = SCSI_CMD_FORMAT_UNIT ∨
      cmd = SCSI_CMD_WRITE12 ∨ cmd = SCSI_CMD_WRITE16) :
    tud_msc_scsi_cb cmd st
      = ({ st with sense := some (SCSI_SENSE_DATA_PROTECT, SCSI_ASC_WRITE_PROTECTED,
                                  SCSI_ASCQ_WRITE_PROTECTED) }, TUD_MSC_RET_ERROR) ∧
    (tud_msc_scsi_cb cmd st).1.vol = st.vol ∧
    (tud_msc_scsi_cb cmd st).1.contents_changed_flag = st.contents_changed_flag ∧
    tud_msc_write10_cb st
      = ({ st with sense := some (SCSI_SENSE_DATA_PROTECT, SCSI_ASC_WRITE_PROTECTED,
                                  SCSI_ASCQ_WRITE_PROTECTED) }, TUD_MSC_RET_ERROR) ∧
    (tud_msc_write10_cb st).1.vol = st.vol := by
  have h : tud_msc_scsi_cb cmd st
      = ({ st with sense := some (SCSI_SENSE_DATA_PROTECT, SCSI_ASC_WRITE_PROTECTED,
                                  SCSI_ASCQ_WRITE_PROTECTED) }, TUD_MSC_RET_ERROR) := by
    rw [tud_msc_scsi_cb, if_pos (by tauto)]
  exact ⟨h, by rw [h], by rw [h], rfl, rfl⟩

/-- Witness for c7_write_rejection: the UNMAP command on a clean
adapter state over the trivial volume state. -/
theorem c7_write_rejection_witness :
    tud_msc_scsi_cb SCSI_CMD_UNMAP
        ({ vol := (), sense := none, contents_changed_flag := false } : msc_cb_state Unit)
      = ({ vol := (), sense := some (7, 39, 0), contents_changed_flag := false }, -1) := by
  exact ((c7_write_rejection
      ({ vol := (), sense := none, contents_changed_flag := false } : msc_cb_state Unit)
      SCSI_CMD_UNMAP (Or.inr (Or.inr (Or.inl rfl)))).1).trans (by decide)

/-! Unit-attention pulse (claim C8). -/

/-- Claim C8 (confirmed): after vd_virtual_disk_contents_changed, the
next TEST UNIT READY fails (CHECK CONDITION) with UNIT ATTENTION /
MEDIUM MAY HAVE CHANGED sense 06/28/00 and clears the contents-changed
flag; after any TEST UNIT READY the flag is down, and a TEST UNIT READY
with the flag down succeeds and changes nothing — so every later TEST
UNIT READY succeeds until the next contents_changed call, and two
consecutive TEST UNIT READY commands never both return CHECK
CONDITION. -/
theorem c8_unit_attention_pulse {σ : Type} (st : msc_cb_state σ) :
    (test_unit_ready_step (vd_virtual_disk_contents_changed false st)).2 = false ∧
    (test_unit_ready_step (vd_virtual_disk_contents_changed false st)).1.sense
      = some (SCSI_SENSE_UNIT_ATTENTION, SCSI_ASC_MEDIUM_MAY_HAVE_CHANGED, 0) ∧
    (test_unit_ready_step (vd_virtual_disk_contents_changed false st)).1.vol = st.vol ∧
    (∀ st' : msc_cb_state σ, (test_unit_ready_step st').1.contents_changed_flag = false) ∧
    (∀ st' : msc_cb_state σ, st'.contents_changed_flag = false →
      test_unit_ready_step st' = (st', true)) := by
  have hstep : ∀ st' : msc_cb_state σ, st'.contents_changed_flag = true →
      test_unit_ready_step st'
        = ({ st' with sense := some (SCSI_SENSE_UNIT_ATTENTION,
              SCSI_ASC_MEDIUM_MAY_HAVE_CHANGED, 0), contents_changed_flag := false },
           false) := by
    intro st' h
    simp [test_unit_ready_step, tud_msc_scsi_pre_cb, tud_msc_test_unit_ready_cb,
      SCSI_CMD_TEST_UNIT_READY, SCSI_CMD_INQUIRY, SCSI_CMD_READ_CAPACITY_10,
      TUD_MSC_RET_ERROR, TUD_MSC_RET_CALL_DEFAULT, h]
  have hstep0 : ∀ st' : msc_cb_state σ, st'.contents_changed_flag = false →
      test_unit_ready_step st' = (st', true) := by
    intro st' h
    simp [test_unit_ready_step, tud_msc_scsi_pre_cb, tud_msc_test_unit_ready_cb,
      SCSI_CMD_TEST_UNIT_READY, SCSI_CMD_INQUIRY, SCSI_CMD_READ_CAPACITY_10,
      TUD_MSC_RET_ERROR, TUD_MSC_RET_CALL_DEFAULT, h]
  have hcc : (vd_virtual_disk_contents_changed false st).contents_changed_flag = true := rfl
  refine ⟨?_, ?_, ?_, ?_, hstep0⟩
  · rw [hstep _ hcc]
  · rw [hstep _ hcc]
  · rw [hstep _ hcc]
    rfl
  · intro st'
    cases h' : st'.contents_changed_flag
    · rw [hstep0 _ h']
      exact h'
    · rw [hstep _ h']

/-- Witness for c8_unit_attention_pulse: the pulse on the trivial
volume state, checked end to end — the first TEST UNIT READY after the
change fails with 06/28/00, the second succeeds. -/
theorem c8_unit_attention_pulse_witness :
    (test_unit_ready_step (vd_virtual_disk_contents_changed false
        ({ vol := (), sense := none, contents_changed_flag := false } : msc_cb_state Unit))).2
      = false ∧
    (test_unit_ready_step (test_unit_ready_step (vd_virtual_disk_contents_changed false
        ({ vol := (), sense := none, contents_changed_flag := false } : msc_cb_state Unit))).1).2
      = true := by
  refine ⟨(c8_unit_attention_pulse
      ({ vol := (), sense := none, contents_changed_flag := false } : msc_cb_state Unit)).1, ?_⟩
  decide

/-! Directory SetChecksum law (claim C3). -/

/-- getD of a list after set, at the set index. -/
theorem getD_set_self (l : List Nat) (i v : Nat) (h : i < l.length) :
    (l.set i v).getD i 0 = v := by
  simp [List.getD_eq_getElem?_getD, List.getElem?_set_eq h]

/-- getD of a list after set, away from the set index. -/
theorem getD_set_other (l : List Nat) (i j v : Nat) (h : i ≠ j) :
    (l.set i v).getD j 0 = l.getD j 0 := by
  simp [List.getD_eq_getElem?_getD, List.getElem?_set_ne h]

/-- getD of an append, inside the left part. -/
theorem getD_append_lt (l1 l2 : List Nat) (i : Nat) (h : i < l1.length) :
    (l1 ++ l2).getD i 0 = l1.getD i 0 := by
  simp [List.getD_eq_getElem?_getD, List.getElem?_append, h]

/-- getD of an append, inside the right part. -/
theorem getD_append_ge (l1 l2 : List Nat) (i : Nat) (h : l1.length ≤ i) :
    (l1 ++ l2).getD i 0 = l2.getD (i - l1.length) 0 := by
  simp [List.getD_eq_getElem?_getD, List.getElem?_append, Nat.not_lt.mpr h]

/-- The SetChecksum kernel keeps its running sum below 2^16. -/
theorem setchecksum_aux_lt : ∀ (l : List Nat) (i s : Nat), s < 2 ^ 16 →
    setchecksum_aux l i s < 2 ^ 16 := by
  intro l
  induction l with
  | nil => intro i s hs; simpa [setchecksum_aux] using hs
  | cons b t ih =>
    intro i s hs
    rw [setchecksum_aux]
    split
    · exact ih _ _ hs
    · exact ih _ _ (Nat.mod_lt _ (by norm_num))

/-- The computed SetChecksum is a 16-bit value. -/
theorem setchecksum_lt (l : List Nat) : exfat_dirs_compute_setchecksum l < 2 ^ 16 :=
  setchecksum_aux_lt l 0 0 (by norm_num)

/-- The SetChecksum walk ignores the bytes at absolute indices 2 and 3,
so setting either of them leaves the checksum unchanged. -/
theorem setchecksum_aux_set : ∀ (l : List Nat) (j x i s : Nat),
    i + j = 2 ∨ i + j = 3 → setchecksum_aux (l.set j x) i s = setchecksum_aux l i s := by
  intro l
  induction l with
  | nil => intro j x i s _; rfl
  | cons b t ih =>
    intro j x i s hj
    cases j with
    | zero =>
      have hi : i = 2 ∨ i = 3 := by omega
      rw [List.set_cons_zero, setchecksum_aux, setchecksum_aux]
      rcases hi with h | h <;> simp [h]
    | succ j' =>
      rw [List.set_cons_succ, setchecksum_aux, setchecksum_aux]
      exact ih j' x (i + 1) _ (by omega)

/-- Splicing the SetChecksum into bytes 2 and 3 does not change the
SetChecksum of the entry set. -/
theorem setchecksum_emitted (e : List Nat) :
    exfat_dirs_compute_setchecksum (emitted_entry_set e)
      = exfat_dirs_compute_setchecksum e := by
  rw [emitted_entry_set]
  split
  · rw [exfat_dirs_compute_setchecksum, exfat_dirs_compute_setchecksum,
      setchecksum_aux_set _ 3 _ 0 _ (by omega), setchecksum_aux_set _ 2 _ 0 _ (by omega)]
  · rfl

/-- Bytes 2 and 3 of an emitted checksummed entry set reassemble to the
SetChecksum over the emitted set (excluding those bytes, as the kernel
does by construction). -/
theorem emitted_checksum_bytes (e : List Nat) (hn : set_needs_checksum e = true)
    (hlen : 4 ≤ e.length) :
    (emitted_entry_set e).getD 2 0 + 256 * (emitted_entry_set e).getD 3 0
      = exfat_dirs_compute_setchecksum (emitted_entry_set e) := by
  rw [setchecksum_emitted, emitted_entry_set, if_pos hn]
  rw [getD_set_other _ 3 2 _ (by omega),
      getD_set_self _ 2 _ (by omega),
      getD_set_self _ 3 _ (by simp [List.length_set]; omega)]
  have h := setchecksum_lt e
  omega

/-- splice_setchecksum preserves the chunk length. -/
theorem splice_setchecksum_length (L : List Nat) (eo cl ck : Nat) (needs : Bool) :
    (splice_setchecksum L eo cl ck needs).length = L.length := by
  simp only [splice_setchecksum]
  split_ifs <;> simp [List.length_set]

/-- getD through drop-then-take. -/
theorem drop_take_getD (e : List Nat) (d cl i : Nat) (hi : i < cl) :
    ((e.drop d).take cl).getD i 0 = e.getD (d + i) 0 := by
  simp [List.getD_eq_getElem?_getD, List.getElem?_take, List.getElem?_drop, hi]

/-- The chunk the fixed-sector generator copies and patches agrees
byte for byte with the emitted entry set. -/
theorem splice_chunk_getD (e : List Nat) (d cl i : Nat)
    (hi : i < cl) (hcl : d + cl ≤ e.length) :
    (splice_setchecksum ((e.drop d).take cl) d cl
        (exfat_dirs_compute_setchecksum e) (set_needs_checksum e)).getD i 0
      = (emitted_entry_set e).getD (d + i) 0 := by
  have hLlen : ((e.drop d).take cl).length = cl := by
    simp [List.length_take, List.length_drop]
    omega
  have hremove : ∀ (c1 : List Nat) (p hv : Nat) (C : Prop) [inst : Decidable C],
      (C → p ≠ i) → (if C then c1.set p hv else c1).getD i 0 = c1.getD i 0 := by
    intro c1 p hv C _ hne
    split
    next hC => exact getD_set_other _ _ _ _ (hne hC)
    next => rfl
  simp only [splice_setchecksum, emitted_entry_set]
  by_cases hn : set_needs_checksum e = true
  · simp only [hn, true_and]
    by_cases h2 : d + i = 2
    · rw [hremove _ _ _ _ (fun _ => by omega)]
      rw [if_pos ⟨by omega, by omega⟩]
      rw [show (2 - d : Nat) = i by omega]
      rw [getD_set_self _ _ _ (by omega)]
      rw [if_pos trivial]
      rw [show (d + i : Nat) = 2 by omega]
      rw [getD_set_other _ 3 2 _ (by omega), getD_set_self _ 2 _ (by omega)]
    · by_cases h3 : d + i = 3
      · rw [if_pos ⟨by omega, by omega⟩]
        have hc1len : (if d ≤ 2 ∧ 2 - d < cl then
            ((e.drop d).take cl).set (2 - d) (exfat_dirs_compute_setchecksum e % 256)
          else (e.drop d).take cl).length = cl := by
          split <;> simp [List.length_set, hLlen]
        rw [show (3 - d : Nat) = i by omega]
        rw [getD_set_self _ _ _ (by rw [hc1len]; omega)]
        rw [if_pos trivial]
        rw [show (d + i : Nat) = 3 by omega]
        rw [getD_set_self _ 3 _ (by simp [List.length_set]; omega)]
      · rw [hremove _ _ _ _ (fun hC => by omega)]
        rw [hremove _ _ _ _ (fun hC => by omega)]
        rw [if_pos trivial]
        rw [getD_set_other _ 3 _ _ (by omega), getD_set_other _ 2 _ _ (by omega)]
        exact drop_take_getD e d cl i hi
  · simp only [hn, false_and, if_false]
    have hnn : set_needs_checksum e = false := by
      cases h : set_needs_checksum e
      · rfl
      · exact absurd h hn
    simp only [hnn, Bool.false_eq_true, false_and, if_false]
    exact drop_take_getD e d cl i hi

/-- Slice correctness of the fixed root-directory generator: byte i of
the generated slice [d, d+len) is byte d+i of the logical fixed sector
(emitted entry sets followed by the 0x01 fill). -/
theorem root_dir_fixed_core_getD :
    ∀ (sets : List (List Nat)) (d len i : Nat), i < len →
      (root_dir_fixed_core sets d len).getD i 0 = root_dir_fixed_sector_byte sets (d + i) := by
  intro sets
  induction sets with
  | nil =>
    intro d len i hi
    simp [root_dir_fixed_core, root_dir_fixed_sector_byte,
      List.getD_eq_getElem?_getD, List.getElem?_replicate, hi]
  | cons e rest ih =>
    intro d len i hi
    simp only [root_dir_fixed_core, root_dir_fixed_sector_byte]
    by_cases hd : e.length ≤ d
    · rw [if_pos hd, if_neg (by omega), ih (d - e.length) len i hi]
      congr 1
      omega
    · rw [if_neg hd]
      have hchunk_len : (splice_setchecksum ((e.drop d).take (min (e.length - d) len)) d
          (min (e.length - d) len) (exfat_dirs_compute_setchecksum e)
          (set_needs_checksum e)).length = min (e.length - d) len := by
        rw [splice_setchecksum_length]
        simp [List.length_take, List.length_drop]
      by_cases hcase : i < min (e.length - d) len
      · have hsc := splice_chunk_getD e d (min (e.length - d) len) i hcase (by omega)
        by_cases hrem : len - min (e.length - d) len = 0
        · rw [if_pos hrem, hsc, if_pos (by omega)]
        · rw [if_neg hrem, getD_append_lt _ _ i (by rw [hchunk_len]; omega), hsc,
            if_pos (by omega)]
      · push_neg at hcase
        have hrem : ¬(len - min (e.length - d) len = 0) := by omega
        rw [if_neg hrem, getD_append_ge _ _ i (by rw [hchunk_len]; omega), hchunk_len,
          ih 0 (len - min (e.length - d) len) (i - min (e.length - d) len) (by omega),
          if_neg (by omega)]
        congr 1
        omega

/-- take commutes with set. -/
theorem take_set_comm : ∀ (l : List Nat) (i v n : Nat),
    (l.set i v).take n = (l.take n).set i v := by
  intro l
  induction l with
  | nil => intro i v n; simp
  | cons b t ih =>
    intro i v n
    cases n with
    | zero => simp
    | succ m =>
      cases i with
      | zero => simp [List.set_cons_zero, List.take_succ_cons]
      | succ j => simp [List.set_cons_succ, List.take_succ_cons, ih]

/-- The dynamic-sector builder stores at bytes 2 and 3 exactly the
SetChecksum over the (1 + secondary_count) * 32 bytes of the entry set
it just built (which splicing leaves unchanged). -/
theorem dynamic_place_checksum_bytes (buf : List Nat) (sc : Nat) (hbuf : 4 ≤ buf.length) :
    (dynamic_set_place_checksum buf sc).getD 2 0
        + 256 * (dynamic_set_place_checksum buf sc).getD 3 0
      = exfat_dirs_compute_setchecksum
          ((dynamic_set_place_checksum buf sc).take ((1 + sc) * 32)) := by
  simp only [dynamic_set_place_checksum]
  rw [getD_set_other _ 3 2 _ (by omega),
      getD_set_self _ 2 _ (by omega),
      getD_set_self _ 3 _ (by simp [List.length_set]; omega)]
  rw [take_set_comm, take_set_comm]
  simp only [exfat_dirs_compute_setchecksum]
  rw [setchecksum_aux_set _ 3 _ 0 _ (by omega), setchecksum_aux_set _ 2 _ 0 _ (by omega)]
  have h := setchecksum_lt (buf.take ((1 + sc) * 32))
  rw [exfat_dirs_compute_setchecksum] at h
  omega

/-- Byte i of the requested slice of a dynamic root-directory sector is
byte offset+i of the built entry-set buffer. -/
theorem dynamic_sector_slice_getD (buf : List Nat) (offset bufsize i : Nat)
    (hi : i < bufsize) :
    (dynamic_sector_slice buf offset bufsize).getD i 0 = buf.getD (offset + i) 0 := by
  simp [dynamic_sector_slice, List.getD_eq_getElem?_getD, List.getElem?_map,
    List.getElem?_range hi]

/-- Claim C3 (confirmed): the SetChecksum law.  In the fixed
root-directory sector every requested (offset, len) slice delivers the
bytes of the logical sector assembled from the emitted entry sets (with
the checksum spliced into bytes 2-3 of every 0x85/0xA0-headed set), and
in every emitted checksummed set the 16-bit value at bytes 2-3 equals
the shift-add checksum over the set's bytes excluding bytes 2-3; the
dynamically built sectors store at bytes 2-3 the checksum over the
(1 + secondary_count) * 32 bytes of the just-built set, and their slice
copy likewise delivers the built bytes at every (offset, len). -/
theorem c3_setchecksum_law (sets : List (List Nat)) (offset bufsize i : Nat)
    (e buf : List Nat) (sc : Nat) (hi : i < bufsize)
    (hne : set_needs_checksum e = true) (hlen : 4 ≤ e.length) (hbuf : 4 ≤ buf.length) :
    (exfat_generate_root_dir_fixed_sector sets offset bufsize).getD i 0
      = root_dir_fixed_sector_byte sets (offset + i) ∧
    (emitted_entry_set e).getD 2 0 + 256 * (emitted_entry_set e).getD 3 0
      = exfat_dirs_compute_setchecksum (emitted_entry_set e) ∧
    (dynamic_set_place_checksum buf sc).getD 2 0
        + 256 * (dynamic_set_place_checksum buf sc).getD 3 0
      = exfat_dirs_compute_setchecksum
          ((dynamic_set_place_checksum buf sc).take ((1 + sc) * 32)) ∧
    (dynamic_sector_slice (dynamic_set_place_checksum buf sc) offset bufsize).getD i 0
      = (dynamic_set_place_checksum buf sc).getD (offset + i) 0 :=
  ⟨root_dir_fixed_core_getD sets offset bufsize i hi,
   emitted_checksum_bytes e hne hlen,
   dynamic_place_checksum_bytes buf sc hbuf,
   dynamic_sector_slice_getD _ offset bufsize i hi⟩

/-- Witness for c3_setchecksum_law: a one-set table holding a five-byte
0x85-headed set, the slice [1, 3) of the fixed sector, and a six-byte
0xA0-headed scratch buffer with secondary_count 0. -/
theorem c3_setchecksum_law_witness :
    (exfat_generate_root_dir_fixed_sector [[0x85, 1, 0, 0, 7]] 1 2).getD 1 0
      = root_dir_fixed_sector_byte [[0x85, 1, 0, 0, 7]] (1 + 1) ∧
    (emitted_entry_set [0x85, 1, 0, 0, 7]).getD 2 0
        + 256 * (emitted_entry_set [0x85, 1, 0, 0, 7]).getD 3 0
      = exfat_dirs_compute_setchecksum (emitted_entry_set [0x85, 1, 0, 0, 7]) ∧
    (dynamic_set_place_checksum [0xA0, 0, 9, 9, 5, 5] 0).getD 2 0
        + 256 * (dynamic_set_place_checksum [0xA0, 0, 9, 9, 5, 5] 0).getD 3 0
      = exfat_dirs_compute_setchecksum
          ((dynamic_set_place_checksum [0xA0, 0, 9, 9, 5, 5] 0).take ((1 + 0) * 32)) ∧
    (dynamic_sector_slice (dynamic_set_place_checksum [0xA0, 0, 9, 9, 5, 5] 0) 1 2).getD 1 0
      = (dynamic_set_place_checksum [0xA0, 0, 9, 9, 5, 5] 0).getD (1 + 1) 0 :=
  c3_setchecksum_law [[0x85, 1, 0, 0, 7]] 1 2 1 [0x85, 1, 0, 0, 7] [0xA0, 0, 9, 9, 5, 5] 0
    (by decide) (by decide) (by decide) (by decide)

/-! Ring-buffer window correspondence (claim C9). -/

/-- Two positions strictly less than a full turn apart fall in
different residue classes modulo K. -/
theorem mod_ne_of_between (K u v : Nat) (h1 : v < u) (h2 : u < v + K) :
    u % K ≠ v % K := by
  intro h
  have hd : K ∣ u - v := (Nat.modEq_iff_dvd' (by omega)).mp h.symm
  have := Nat.le_of_dvd (by omega) hd
  omega

/-- Effect of the byte-by-byte store loop of ring_buffer_write: the
write pointer advances by the write length modulo K, the capacity is
unchanged, byte i of the write lands at index (ptr + i) mod K, and
every position no store hits keeps its old byte. -/
theorem ring_store_run (K : Nat) (hK : 0 < K) :
    ∀ (w data : List Nat) (ptr : Nat), data.length = K → ptr < K → w.length ≤ K →
      (w.foldl (ring_buffer_store K) (data, ptr)).2 = (ptr + w.length) % K ∧
      (w.foldl (ring_buffer_store K) (data, ptr)).1.length = K ∧
      (∀ i, i < w.length →
        (w.foldl (ring_buffer_store K) (data, ptr)).1.getD ((ptr + i) % K) 0
          = w.getD i 0) ∧
      (∀ q, (∀ i, i < w.length → (ptr + i) % K ≠ q) →
        (w.foldl (ring_buffer_store K) (data, ptr)).1.getD q 0 = data.getD q 0) := by
  intro w
  induction w with
  | nil =>
    intro data ptr hdata hptr _
    refine ⟨by simp [Nat.mod_eq_of_lt hptr], hdata, ?_, fun q _ => rfl⟩
    intro i hi
    simp at hi
  | cons b t ih =>
    intro data ptr hdata hptr hlen
    simp only [List.length_cons] at hlen
    rw [List.foldl_cons]
    have hps : ring_buffer_store K (data, ptr) b = (data.set ptr b, (ptr + 1) % K) := by
      simp only [ring_buffer_store]
      by_cases h : ptr + 1 = K
      · rw [if_pos h, h, Nat.mod_self]
      · rw [if_neg h, Nat.mod_eq_of_lt (by omega)]
    rw [hps]
    obtain ⟨ih1, ih2, ih3, ih4⟩ := ih (data.set ptr b) ((ptr + 1) % K)
      (by simp [hdata]) (Nat.mod_lt _ hK) (by omega)
    have hshift : ∀ i : Nat, ((ptr + 1) % K + i) % K = (ptr + (i + 1)) % K := by
      intro i
      rw [Nat.mod_add_mod]
      congr 1
      omega
    have hne0 : ∀ i, i < t.length → ((ptr + 1) % K + i) % K ≠ ptr := by
      intro i hi
      rw [hshift i]
      have := mod_ne_of_between K (ptr + (i + 1)) ptr (by omega) (by omega)
      rw [Nat.mod_eq_of_lt hptr] at this
      exact this
    refine ⟨?_, ih2, ?_, ?_⟩
    · rw [ih1, Nat.mod_add_mod]
      congr 1
      simp only [List.length_cons]
      omega
    · intro i hi
      cases i with
      | zero =>
        have hidx : (ptr + 0) % K = ptr := by
          rw [Nat.add_zero]
          exact Nat.mod_eq_of_lt hptr
        rw [hidx, ih4 ptr hne0, getD_set_self _ _ _ (by omega)]
        rfl
      | succ i' =>
        simp only [List.length_cons] at hi
        have := ih3 i' (by omega)
        rw [hshift i'] at this
        rw [this, List.getD_cons_succ]
    · intro q hq
      rw [ih4 q (fun i hi => by rw [hshift i]; exact hq (i + 1) (by simp; omega))]
      exact getD_set_other _ _ _ _ (by
        have := hq 0 (by simp)
        rw [Nat.add_zero, Nat.mod_eq_of_lt hptr] at this
        exact this)

/-- One ring_buffer_write of at most the capacity preserves the window
invariant, extending the stream by the written bytes. -/
theorem ring_write_inv (K : Nat) (hK : 0 < K) (S w : List Nat) (rb : ring_buffer_t)
    (hinv : ring_window_inv K S rb) (hw : w.length ≤ K) :
    ring_window_inv K (S ++ w) (ring_buffer_write rb w).1 := by
  obtain ⟨htot, hdata, hptr, hwin⟩ := hinv
  have hcap : ring_buffer_capacity rb = K := by rw [ring_buffer_capacity, hdata]
  have hptrlt : rb.ptr < K := by rw [hptr]; exact Nat.mod_lt _ hK
  simp only [ring_buffer_write, hcap]
  rw [if_neg (by omega)]
  obtain ⟨h1, h2, h3, h4⟩ := ring_store_run K hK w rb.data rb.ptr hdata hptrlt hw
  refine ⟨?_, h2, ?_, ?_⟩
  · simp [htot, List.length_append]
  · rw [h1, hptr, Nat.mod_add_mod]
    simp [List.length_append]
  · intro v hv hvk
    simp only [List.length_append] at hv hvk
    by_cases hvB : v < S.length
    · have hne : ∀ i, i < w.length → (rb.ptr + i) % K ≠ v % K := by
        intro i hi
        rw [hptr, Nat.mod_add_mod]
        exact mod_ne_of_between K (S.length + i) v (by omega) (by omega)
      rw [h4 (v % K) hne, hwin v hvB (by omega), getD_append_lt _ _ _ hvB]
    · have hvi : v = S.length + (v - S.length) := by omega
      have hlt : v - S.length < w.length := by omega
      have hidx : (rb.ptr + (v - S.length)) % K = v % K := by
        rw [hptr, Nat.mod_add_mod, ← hvi]
      have := h3 (v - S.length) hlt
      rw [hidx] at this
      rw [this, getD_append_ge _ _ _ (by omega)]

/-- The window invariant holds after any sequence of writes of at most
the capacity each, from the initial state. -/
theorem ring_after_inv (K : Nat) (hK : 0 < K) :
    ∀ writes : List (List Nat), (∀ w ∈ writes, w.length ≤ K) →
      ring_window_inv K (ring_stream writes) (ring_buffer_after K writes) := by
  intro writes
  induction writes using List.reverseRecOn with
  | nil =>
    intro _
    refine ⟨rfl, by simp [ring_buffer_after, ring_buffer_initial],
      by simp [ring_buffer_after, ring_buffer_initial, ring_stream], ?_⟩
    intro v hv _
    simp [ring_stream] at hv
  | append_singleton ws w ih =>
    intro hw
    have h1 : ring_buffer_after K (ws ++ [w])
        = (ring_buffer_write (ring_buffer_after K ws) w).1 := by
      simp [ring_buffer_after, List.foldl_append]
    have h2 : ring_stream (ws ++ [w]) = ring_stream ws ++ w := by
      simp [ring_stream, List.flatten_append]
    rw [h1, h2]
    exact ring_write_inv K hK _ w _ (ih (fun x hx => hw x (by simp [hx])))
      (hw w (by simp))

/-- Effect of the copy loop of ring_buffer_get on the destination:
length preserved, positions no copy hits untouched, and position
base + j receives the ring byte at index (s + j) mod K. -/
theorem ring_get_fold (src : List Nat) (s K : Nat) :
    ∀ (n : Nat) (dst : List Nat) (base : Nat),
      ((List.range n).foldl
        (fun d j => d.set (base + j) (src.getD ((s + j) % K) 0)) dst).length
          = dst.length ∧
      (∀ q, (∀ j, j < n → base + j ≠ q) →
        ((List.range n).foldl
          (fun d j => d.set (base + j) (src.getD ((s + j) % K) 0)) dst).getD q 0
            = dst.getD q 0) ∧
      (∀ j, j < n → base + j < dst.length →
        ((List.range n).foldl
          (fun d j => d.set (base + j) (src.getD ((s + j) % K) 0)) dst).getD (base + j) 0
            = src.getD ((s + j) % K) 0) := by
  intro n
  induction n with
  | zero =>
    intro dst base
    exact ⟨rfl, fun q _ => rfl, fun j hj _ => absurd hj (by omega)⟩
  | succ m ih =>
    intro dst base
    rw [List.range_succ, List.foldl_append]
    simp only [List.foldl_cons, List.foldl_nil]
    obtain ⟨ih1, ih2, ih3⟩ := ih dst base
    refine ⟨?_, ?_, ?_⟩
    · rw [List.length_set]
      exact ih1
    · intro q hq
      rw [getD_set_other _ _ _ _ (hq m (by omega))]
      exact ih2 q (fun j hj => hq j (by omega))
    · intro j hj hlt
      by_cases hjm : j = m
      · subst hjm
        rw [getD_set_self _ _ _ (by rw [ih1]; exact hlt)]
      · rw [getD_set_other _ _ _ _ (by omega)]
        exact ih3 j (by omega) hlt

/-- ring_buffer_get on a state satisfying the window invariant: the
returned count is the size of the intersection of [offset, offset+len)
with the live window [max(offset, tot-K), min(tot, offset+len)), the
copied destination bytes are exactly the corresponding bytes of the
written stream, and every other destination byte is untouched. -/
theorem ring_buffer_get_window (K : Nat) (S : List Nat) (rb : ring_buffer_t)
    (offset len : Nat) (dst : List Nat) (hinv : ring_window_inv K S rb) (hK : 0 < K)
    (hdst : len ≤ dst.length) :
    (ring_buffer_get rb offset dst len).2
      = min S.length (offset + len) - max offset (S.length - K) ∧
    (ring_buffer_get rb offset dst len).1.length = dst.length ∧
    (∀ j, j < min S.length (offset + len) - max offset (S.length - K) →
      (ring_buffer_get rb offset dst len).1.getD
          (max offset (S.length - K) - offset + j) 0
        = S.getD (max offset (S.length - K) + j) 0) ∧
    (∀ q, q < max offset (S.length - K) - offset ∨
        max offset (S.length - K) - offset
          + (min S.length (offset + len) - max offset (S.length - K)) ≤ q →
      (ring_buffer_get rb offset dst len).1.getD q 0 = dst.getD q 0) := by
  obtain ⟨htot, hdata, hptr, hwin⟩ := hinv
  have hcap : ring_buffer_capacity rb = K := by rw [ring_buffer_capacity, hdata]
  simp only [ring_buffer_get, hcap, htot]
  have hso : (if S.length > K then S.length - K else 0) = S.length - K := by
    split <;> omega
  rw [hso]
  split
  next hdeg =>
    rcases hdeg with h | h
    · exact ⟨by omega, rfl, fun j hj => absurd hj (by omega), fun q _ => rfl⟩
    · exact ⟨by omega, rfl, fun j hj => absurd hj (by omega), fun q _ => rfl⟩
  next hdeg =>
    push_neg at hdeg
    obtain ⟨hoff, hlen⟩ := hdeg
    have has : (if offset < S.length - K then S.length - K else offset)
        = max offset (S.length - K) := by
      split <;> omega
    have hae : (if offset + len > S.length then S.length else offset + len)
        = min S.length (offset + len) := by
      split <;> omega
    have hbo : (if max offset (S.length - K) > offset then
        max offset (S.length - K) - offset else 0)
          = max offset (S.length - K) - offset := by
      split <;> omega
    rw [has, hae, hbo]
    obtain ⟨g1, g2, g3⟩ := ring_get_fold rb.data (max offset (S.length - K) % K) K
      (min S.length (offset + len) - max offset (S.length - K)) dst
      (max offset (S.length - K) - offset)
    refine ⟨rfl, g1, ?_, ?_⟩
    · intro j hj
      rw [g3 j hj (by omega)]
      have hidx : (max offset (S.length - K) % K + j) % K
          = (max offset (S.length - K) + j) % K := Nat.mod_add_mod _ _ _
      rw [hidx]
      exact hwin (max offset (S.length - K) + j) (by omega) (by omega)
    · intro q hq
      exact g2 q (fun j hj => by omega)

/-- Claim C9 (corrected): for every sequence of ring writes, each of at
most the capacity K (the counterexample c9_oversized_write_window_shifted
shows the claim fails for an oversized single write), and every read
request (offset, len) with a large enough destination, ring_buffer_get
copies into the destination exactly the intersection of
[offset, offset+len) with the live window [max(0, B-K), B) of the
concatenated written stream, returns its size
min(B, offset+len) - max(offset, B-K) (truncated at 0), and leaves
every other destination byte untouched. -/
theorem c9_ring_window_amended (K offset len : Nat) (writes : List (List Nat))
    (dst : List Nat) (hK : 0 < K) (hw : ∀ w ∈ writes, w.length ≤ K)
    (hdst : len ≤ dst.length) :
    (ring_buffer_get (ring_buffer_after K writes) offset dst len).2
      = min (ring_stream writes).length (offset + len)
          - max offset ((ring_stream writes).length - K) ∧
    (ring_buffer_get (ring_buffer_after K writes) offset dst len).1.length
      = dst.length ∧
    (∀ j, j < min (ring_stream writes).length (offset + len)
        - max offset ((ring_stream writes).length - K) →
      (ring_buffer_get (ring_buffer_after K writes) offset dst len).1.getD
          (max offset ((ring_stream writes).length - K) - offset + j) 0
        = (ring_stream writes).getD
            (max offset ((ring_stream writes).length - K) + j) 0) ∧
    (∀ q, q < max offset ((ring_stream writes).length - K) - offset ∨
        max offset ((ring_stream writes).length - K) - offset
          + (min (ring_stream writes).length (offset + len)
              - max offset ((ring_stream writes).length - K)) ≤ q →
      (ring_buffer_get (ring_buffer_after K writes) offset dst len).1.getD q 0
        = dst.getD q 0) :=
  ring_buffer_get_window K (ring_stream writes) (ring_buffer_after K writes)
    offset len dst (ring_after_inv K hK writes hw) hK hdst

/-- Witness for c9_ring_window_amended: two writes [9, 1] and [2] into
a capacity-2 ring (stream [9, 1, 2]), then a read of [1, 3): both
requested bytes are live, the copy returns 2 bytes and the destination
holds the stream bytes 1 and 2. -/
theorem c9_ring_window_amended_witness :
    (ring_buffer_get (ring_buffer_after 2 [[9, 1], [2]]) 1 [7, 7] 2).2 = 2 ∧
    (ring_buffer_get (ring_buffer_after 2 [[9, 1], [2]]) 1 [7, 7] 2).1.getD 0 0
      = (ring_stream [[9, 1], [2]]).getD 1 0 ∧
    (ring_buffer_get (ring_buffer_after 2 [[9, 1], [2]]) 1 [7, 7] 2).1.getD 1 0
      = (ring_stream [[9, 1], [2]]).getD 2 0 := by
  have h := c9_ring_window_amended 2 1 2 [[9, 1], [2]] [7, 7] (by decide)
    (by intro w hw; fin_cases hw <;> decide) (by decide)
  refine ⟨h.1.trans (by decide), ?_, ?_⟩
  · have h0 := h.2.2.1 0 (by decide)
    simpa [ring_stream] using h0
  · have h1 := h.2.2.1 1 (by decide)
    simpa [ring_stream] using h1
